import Mathlib

/-!
Verification of the chart-service render-and-cache pipeline.

The definitions below are a shallow embedding of the TypeScript sources
`src/services/redis.ts` (RedisService and the caching ChartGeneratorService
variant) and `src/services/chartGenerator.ts`, together with the data model of
`src/types/database.ts`.  External collaborators (the redis client, the
headless browser) are modelled at their interface boundary: each backend
operation is an oracle value of type `Exc α` (success or a thrown error), and
JavaScript try/catch is the explicit `jsTry` combinator.  Machine-level
details that the code relies on (JS truthiness, `JSON.stringify` field order,
base64 encoding, MD5, redis glob patterns) are modelled executably.
-/

set_option maxRecDepth 10000

/-- Byte buffers (Node `Buffer`) are lists of byte values. -/
abbrev Bytes := List Nat

/-- Thrown JS exceptions carry a message string. -/
abbrev Exc (α : Type) := Except String α

/-- JS `try ... catch (e) ...` over the exception model. -/
def jsTry {α : Type} (body : Exc α) (handler : String → Exc α) : Exc α :=
  match body with
  | .ok a => .ok a
  | .error e => handler e

/-- A chart color specification: the TS type `string | string[]`. -/
inductive Colors where
  | single (s : String)
  | many (xs : List String)
deriving DecidableEq

/-- JS truthiness of an optional `string | string[]` value: `undefined` and the
empty string are falsy, every array (even empty) and nonempty string truthy. -/
def colorsTruthy : Option Colors → Bool
  | none => false
  | some (.single s) => !(s == "")
  | some (.many _) => true

/-- The nine declared chart type names of `src/types/database.ts`. -/
def chartTypeNames : List String :=
  ["line", "bar", "pie", "doughnut", "radar", "polarArea", "scatter", "bubble", "mixed"]

/-- The `typeMap` object literal of `mapCustomChartType`, as a key/value list
in declaration order. -/
def typeMap : List (String × String) :=
  [("line", "line"), ("bar", "bar"), ("pie", "pie"), ("doughnut", "doughnut"),
   ("radar", "radar"), ("polarArea", "polarArea"), ("scatter", "scatter"),
   ("bubble", "bubble"), ("mixed", "line")]

/-- `mapCustomChartType`: object property lookup; an absent property is
`undefined`, and `undefined || 'line'` falls back to `'line'`. -/
def mapCustomChartType (customType : String) : String :=
  (typeMap.lookup customType).getD "line"

/-- The light-theme palette array repeated for every chart type in
`getBackgroundColors`. -/
def lightPaletteColors : List String :=
  ["#3b82f6", "#ef4444", "#10b981", "#f59e0b", "#8b5cf6", "#ec4899"]

/-- The dark-theme palette array repeated for every chart type in
`getBackgroundColors`. -/
def darkPaletteColors : List String :=
  ["#60a5fa", "#f87171", "#34d399", "#fbbf24", "#a78bfa", "#f472b6"]

/-- The `colorPalettes` object literal: theme name to (chart type name to
palette).  In the source every chart type row within a theme holds the same
array. -/
def colorPalettes : List (String × List (String × List String)) :=
  [("light", chartTypeNames.map (fun t => (t, lightPaletteColors))),
   ("dark", chartTypeNames.map (fun t => (t, darkPaletteColors)))]

/-- `getBackgroundColors`: return the provided colors when truthy, otherwise
look up `colorPalettes[theme][chartType] || colorPalettes[theme].line`.
Indexing into `colorPalettes[theme]` when the theme key is absent is a JS
`TypeError` (reading a property of `undefined`), modelled as a thrown error. -/
def getBackgroundColors (providedColors : Option Colors) (chartType theme : String) :
    Exc Colors :=
  if colorsTruthy providedColors then
    .ok (providedColors.getD (.many []))
  else
    match colorPalettes.lookup theme with
    | none => .error ("TypeError: Cannot read properties of undefined")
    | some themePalettes =>
      match themePalettes.lookup chartType with
      | some colors => .ok (.many colors)
      | none => .ok (.many ((themePalettes.lookup ("line")).getD []))

/-- `getBorderColors`: provided colors when truthy, else the default
background colors for the chart type and theme. -/
def getBorderColors (providedColors : Option Colors) (chartType theme : String) :
    Exc Colors :=
  if colorsTruthy providedColors then
    .ok (providedColors.getD (.many []))
  else
    getBackgroundColors none chartType theme

/-- An input dataset, after `src/types/database.ts` `Dataset`. -/
structure InputDataset where
  label : String
  data : List Int
  backgroundColor : Option Colors
  borderColor : Option Colors
  borderWidth : Option Nat
deriving DecidableEq

/-- The chart data payload, after `src/types/database.ts` `ChartData`.
`labels` is optional because the code guards it with `data.labels || []`. -/
structure ChartData where
  labels : Option (List String)
  datasets : List InputDataset
deriving DecidableEq

/-- The resolved (post-default) render options inside `generateChart`. -/
structure RenderOpts where
  width : Nat
  height : Nat
  theme : String
  title : Option String
  backgroundColor : String
deriving DecidableEq

/-- A dataset as it appears in the emitted Chart.js configuration: the input
fields with colors and border width resolved. -/
structure ResolvedDataset where
  label : String
  data : List Int
  backgroundColor : Colors
  borderColor : Colors
  borderWidth : Nat
deriving DecidableEq

/-- Tick/grid styling of one axis in `getScaleOptions`. -/
structure AxisStyle where
  tickColor : String
  tickFontSize : Nat
  gridColor : String
deriving DecidableEq

/-- The `scales` part of the configuration: Cartesian x/y axes, or the single
radial scale used for radar charts. -/
inductive ScaleOptions where
  | cartesian (x y : AxisStyle)
  | radial (r : AxisStyle) (pointLabelColor : String) (pointLabelFontSize : Nat)
deriving DecidableEq

/-- `getScaleOptions`: text and grid colors derive from the theme; the radar
chart type gets a radial scale instead of Cartesian axes. -/
def getScaleOptions (chartType theme : String) : ScaleOptions :=
  let textColor := if theme == "dark" then "#ffffff" else "#000000"
  let gridColor := if theme == "dark" then "#374151" else "#e5e7eb"
  if chartType == "radar" then
    .radial ⟨textColor, 11, gridColor⟩ textColor 12
  else
    .cartesian ⟨textColor, 11, gridColor⟩ ⟨textColor, 11, gridColor⟩

/-- The fields of the Chart.js configuration object that
`createChartJsConfig` builds (type, data, legend/title plugins, scales). -/
structure ChartJsConfig where
  type : String
  labels : List String
  datasets : List ResolvedDataset
  legendDisplay : Bool
  legendLabelColor : String
  titleDisplay : Bool
  titleText : Option String
  titleColor : String
  scales : ScaleOptions
deriving DecidableEq

/-- Resolution of one dataset inside `createChartJsConfig`'s `datasets.map`:
spread the dataset, then overwrite background color, border color, and
`borderWidth: dataset.borderWidth || 2` (so an explicit 0 also becomes 2). -/
def resolveDataset (chartType theme : String) (ds : InputDataset) :
    Exc ResolvedDataset := do
  let bg ← getBackgroundColors ds.backgroundColor chartType theme
  let bc ← getBorderColors ds.borderColor chartType theme
  pure
    { label := ds.label
      data := ds.data
      backgroundColor := bg
      borderColor := bc
      borderWidth :=
        match ds.borderWidth with
        | some n => if n = 0 then 2 else n
        | none => 2 }

/-- `createChartJsConfig`: maps the datasets through default resolution (a
thrown `TypeError` from an unknown theme propagates), fills in
`labels: data.labels || []`, legend display `datasets.length > 1`, title
display `!!options.title`, and the theme scale options. -/
def createChartJsConfig (chartType : String) (data : ChartData) (opts : RenderOpts) :
    Exc ChartJsConfig := do
  let datasets ← data.datasets.mapM (resolveDataset chartType opts.theme)
  pure
    { type := mapCustomChartType chartType
      labels := data.labels.getD []
      datasets := datasets
      legendDisplay := data.datasets.length > 1
      legendLabelColor := if opts.theme == "dark" then "#ffffff" else "#000000"
      titleDisplay := !((opts.title.getD "") == "")
      titleText := opts.title
      titleColor := if opts.theme == "dark" then "#ffffff" else "#000000"
      scales := getScaleOptions chartType opts.theme }


/-- The base64 alphabet in index order. -/
def b64Alphabet : List Char :=
  ("ABCDEFGHIJKLMNOPQRSTUVWXYZabcdefghijklmnopqrstuvwxyz0123456789+/").toList

/-- The base64 digit for a 6-bit value. -/
def b64Char (n : Nat) : Char := b64Alphabet.getD n ('A')

/-- The 6-bit value of a base64 digit (0 for characters outside the
alphabet). -/
def b64Val (c : Char) : Nat := (b64Alphabet.indexOf? c).getD 0

/-- Node `Buffer.prototype.toString('base64')`: standard base64 with `=`
padding, three input bytes per four output digits. -/
def bufferToBase64 : Bytes → List Char
  | [] => []
  | [x] => [b64Char (x / 4), b64Char (x % 4 * 16), '=', '=']
  | [x, y] => [b64Char (x / 4), b64Char (x % 4 * 16 + y / 16), b64Char (y % 16 * 4), '=']
  | x :: y :: z :: rest =>
      b64Char (x / 4) :: b64Char (x % 4 * 16 + y / 16) ::
        b64Char (y % 16 * 4 + z / 64) :: b64Char (z % 64) :: bufferToBase64 rest

/-- Node `Buffer.from(s, 'base64')` on well-formed base64 text: four digits
per three output bytes, with `=` padding cutting the final group short. -/
def bufferFromB64Chars : List Char → Bytes
  | a :: b :: c :: d :: rest =>
      if c = '=' then [b64Val a * 4 + b64Val b / 16]
      else if d = '=' then
        [b64Val a * 4 + b64Val b / 16, b64Val b % 16 * 16 + b64Val c / 4]
      else
        (b64Val a * 4 + b64Val b / 16) :: (b64Val b % 16 * 16 + b64Val c / 4) ::
          (b64Val c % 4 * 64 + b64Val d) :: bufferFromB64Chars rest
  | _ => []

/-- String form of base64 encoding. -/
def bufferToBase64S (b : Bytes) : String := String.mk (bufferToBase64 b)

/-- String form of base64 decoding. -/
def bufferFromBase64 (s : String) : Bytes := bufferFromB64Chars s.toList

/-- `RedisService.isAvailable`: ping inside try/catch, `false` on any
failure. -/
def RedisService.isAvailable (pingOutcome : Exc Unit) : Bool :=
  match pingOutcome with
  | .ok _ => true
  | .error _ => false

/-- `RedisService.get`: the client `get` inside try/catch; a non-null,
nonempty reply is base64-decoded (`result ? Buffer.from(result, 'base64') :
null` — the empty string is falsy), any thrown backend error yields `null`. -/
def RedisService.get (outcome : Exc (Option String)) : Exc (Option Bytes) :=
  jsTry
    (do
      let result ← outcome
      pure (match result with
            | some s => if s == "" then none else some (bufferFromBase64 s)
            | none => none))
    (fun _ => .ok none)

/-- `RedisService.set`: base64-encode and `setEx` inside try/catch; errors are
logged and swallowed. -/
def RedisService.set (outcome : Exc Unit) : Exc Unit :=
  jsTry outcome (fun _ => .ok ())

/-- `RedisService.connect`: a failure is logged and re-thrown. -/
def RedisService.connect (outcome : Exc Unit) : Exc Unit := outcome

/-- `RedisService.disconnect`: a failure is logged and swallowed. -/
def RedisService.disconnect (outcome : Exc Unit) : Exc Unit :=
  jsTry outcome (fun _ => .ok ())

/-- The cache backend's key/value store, as an association list. -/
abbrev CacheStore := List (String × String)

/-- Store contents after a successful `RedisService.set`: the base64 text of
the buffer replaces any previous entry for the key. -/
def RedisService.setStore (store : CacheStore) (key : String) (value : Bytes) : CacheStore :=
  (key, bufferToBase64S value) :: store.filter (fun kv => !(kv.1 == key))

/-- A successful `RedisService.get` against explicit store contents. -/
def RedisService.getStore (store : CacheStore) (key : String) : Option Bytes :=
  match store.lookup key with
  | some s => if s == "" then none else some (bufferFromBase64 s)
  | none => none

/-- Bounded-fuel core of the redis glob matcher (`stringmatchlen`) restricted
to the `*` wildcard and literal characters, the only constructs the service's
patterns use; any fuel above `p.length + s.length` is sufficient. -/
def globMatchAux : Nat → List Char → List Char → Bool
  | 0, _, _ => false
  | _ + 1, [], s => s.isEmpty
  | fuel + 1, c :: p, s =>
      if c = '*' then
        globMatchAux fuel p s ||
          (match s with
           | [] => false
           | _ :: s2 => globMatchAux fuel (c :: p) s2)
      else
        match s with
        | [] => false
        | d :: s2 => c == d && globMatchAux fuel p s2

/-- Redis-style glob matching of a pattern against a string. -/
def globMatch (p s : List Char) : Bool :=
  globMatchAux (p.length + s.length + 1) p s

/-- Glob matching on strings. -/
def globMatchS (pattern s : String) : Bool := globMatch pattern.toList s.toList

/-- Whether `pre` is a prefix of `s` (character lists). -/
def startsWithChars : List Char → List Char → Bool
  | _, [] => true
  | [], _ :: _ => false
  | c :: s, d :: pre => c == d && startsWithChars s pre

/-- Whether `sub` occurs as a contiguous substring of `s`. -/
def containsChars : List Char → List Char → Bool
  | [], sub => startsWithChars [] sub
  | c :: s2, sub => startsWithChars (c :: s2) sub || containsChars s2 sub

/-- Substring containment on strings (JS `String.prototype.includes`). -/
def containsSubstrS (s sub : String) : Bool := containsChars s.toList sub.toList

/-- The pattern `chart_cache:*:*:*:*:*${chartHash}*` built by
`invalidateChartCache`. -/
def chartCachePattern (chartHash : String) : String :=
  ("chart_cache:*:*:*:*:*" ++ chartHash ++ "*")

/-- The redis `KEYS pattern` reply against explicit store contents. -/
def redisKeysMatching (store : CacheStore) (pattern : String) : List String :=
  (store.map Prod.fst).filter (fun k => globMatchS pattern k)

/-- `RedisService.delPattern` with all backend operations succeeding: list the
keys matching the pattern and, when there is at least one, delete them. -/
def RedisService.delPattern (store : CacheStore) (pattern : String) : CacheStore :=
  let keys := redisKeysMatching store pattern
  if keys.length > 0 then store.filter (fun kv => !(keys.contains kv.1)) else store

/-- `ChartGeneratorService.invalidateChartCache`: delete by the pattern
`chart_cache:*:*:*:*:*${chartHash}*`. -/
def invalidateChartCache (store : CacheStore) (chartHash : String) : CacheStore :=
  RedisService.delPattern store (chartCachePattern chartHash)

/-- MD5 per-round shift amounts. -/
def md5S : List Nat :=
  [7, 12, 17, 22, 7, 12, 17, 22, 7, 12, 17, 22, 7, 12, 17, 22,
   5, 9, 14, 20, 5, 9, 14, 20, 5, 9, 14, 20, 5, 9, 14, 20,
   4, 11, 16, 23, 4, 11, 16, 23, 4, 11, 16, 23, 4, 11, 16, 23,
   6, 10, 15, 21, 6, 10, 15, 21, 6, 10, 15, 21, 6, 10, 15, 21]

/-- MD5 round constants (the sine table of RFC 1321). -/
def md5K : List Nat :=
  [0xd76aa478, 0xe8c7b756, 0x242070db, 0xc1bdceee,
   0xf57c0faf, 0x4787c62a, 0xa8304613, 0xfd469501,
   0x698098d8, 0x8b44f7af, 0xffff5bb1, 0x895cd7be,
   0x6b901122, 0xfd987193, 0xa679438e, 0x49b40821,
   0xf61e2562, 0xc040b340, 0x265e5a51, 0xe9b6c7aa,
   0xd62f105d, 0x02441453, 0xd8a1e681, 0xe7d3fbc8,
   0x21e1cde6, 0xc33707d6, 0xf4d50d87, 0x455a14ed,
   0xa9e3e905, 0xfcefa3f8, 0x676f02d9, 0x8d2a4c8a,
   0xfffa3942, 0x8771f681, 0x6d9d6122, 0xfde5380c,
   0xa4beea44, 0x4bdecfa9, 0xf6bb4b60, 0xbebfbc70,
   0x289b7ec6, 0xeaa127fa, 0xd4ef3085, 0x04881d05,
   0xd9d4d039, 0xe6db99e5, 0x1fa27cf8, 0xc4ac5665,
   0xf4292244, 0x432aff97, 0xab9423a7, 0xfc93a039,
   0x655b59c3, 0x8f0ccc92, 0xffeff47d, 0x85845dd1,
   0x6fa87e4f, 0xfe2ce6e0, 0xa3014314, 0x4e0811a1,
   0xf7537e82, 0xbd3af235, 0x2ad7d2bb, 0xeb86d391]

/-- 32-bit left rotation on naturals below `2^32`. -/
def rotl32 (x s : Nat) : Nat := ((x <<< s) % 4294967296) ||| (x >>> (32 - s))

/-- The MD5 round function (F, G, H, I selected by round index). -/
def md5F (i b c d : Nat) : Nat :=
  if i < 16 then (b &&& c) ||| ((b ^^^ 4294967295) &&& d)
  else if i < 32 then (d &&& b) ||| ((d ^^^ 4294967295) &&& c)
  else if i < 48 then b ^^^ c ^^^ d
  else c ^^^ (b ||| (d ^^^ 4294967295))

/-- The MD5 message-word index for round `i`. -/
def md5G (i : Nat) : Nat :=
  if i < 16 then i % 16
  else if i < 32 then (5 * i + 1) % 16
  else if i < 48 then (3 * i + 5) % 16
  else (7 * i) % 16

/-- Little-endian 32-bit word `j` of a 64-byte block. -/
def md5Word (block : List Nat) (j : Nat) : Nat :=
  block.getD (4 * j) 0 + block.getD (4 * j + 1) 0 * 256 +
    block.getD (4 * j + 2) 0 * 65536 + block.getD (4 * j + 3) 0 * 16777216

/-- One MD5 block transformation (64 rounds plus state addition). -/
def md5ProcessBlock (st : Nat × Nat × Nat × Nat) (block : List Nat) :
    Nat × Nat × Nat × Nat :=
  let final := (List.range 64).foldl
    (fun abcd i =>
      let tmp := (abcd.2.1 + rotl32
        ((abcd.1 + md5F i abcd.2.1 abcd.2.2.1 abcd.2.2.2 + md5K.getD i 0 +
          md5Word block (md5G i)) % 4294967296)
        (md5S.getD i 0)) % 4294967296
      (abcd.2.2.2, tmp, abcd.2.1, abcd.2.2.1))
    st
  ((st.1 + final.1) % 4294967296, (st.2.1 + final.2.1) % 4294967296,
   (st.2.2.1 + final.2.2.1) % 4294967296, (st.2.2.2 + final.2.2.2) % 4294967296)

/-- The 8-byte little-endian bit-length trailer of MD5 padding. -/
def md5LengthBytes (len : Nat) : List Nat :=
  (List.range 8).map (fun i => ((len * 8) >>> (8 * i)) % 256)

/-- MD5 padding: a `0x80` byte, zeros to 56 mod 64, then the length trailer. -/
def md5Pad (msg : List Nat) : List Nat :=
  msg ++ 128 :: (List.replicate ((119 - msg.length % 64) % 64) 0 ++
    md5LengthBytes msg.length)

/-- Fold the block transformation over a padded message, 64 bytes at a time.
The fuel only serves structural recursion; the message length is always
enough. -/
def md5ChunksAux : Nat → List Nat → (Nat × Nat × Nat × Nat) → Nat × Nat × Nat × Nat
  | 0, _, st => st
  | fuel + 1, bytes, st =>
      match bytes with
      | [] => st
      | _ :: _ => md5ChunksAux fuel (bytes.drop 64) (md5ProcessBlock st (bytes.take 64))

/-- A lowercase hexadecimal digit. -/
def hexDigitChar (n : Nat) : Char := ("0123456789abcdef").toList.getD n ('0')

/-- Two lowercase hex digits of a byte. -/
def byteHexChars (b : Nat) : List Char := [hexDigitChar (b / 16), hexDigitChar (b % 16)]

/-- The little-endian hex rendering of one 32-bit state word. -/
def word32HexLE (x : Nat) : List Char :=
  byteHexChars (x % 256) ++ byteHexChars (x / 256 % 256) ++
    byteHexChars (x / 65536 % 256) ++ byteHexChars (x / 16777216 % 256)

/-- The MD5 hex digest of a byte list, as `crypto.createHash('md5')
.update(text).digest('hex')` produces it. -/
def md5Hex (msg : List Nat) : String :=
  let padded := md5Pad msg
  let st := md5ChunksAux padded.length padded
    (0x67452301, 0xefcdab89, 0x98badcfe, 0x10325476)
  String.mk (word32HexLE st.1 ++ word32HexLE st.2.1 ++
    word32HexLE st.2.2.1 ++ word32HexLE st.2.2.2)

/-- The bytes of a string; exact for the ASCII strings the service hashes
(UTF-8 coincides with code points below 128). -/
def strBytes (s : String) : List Nat := s.toList.map Char.toNat

/-- The MD5 hex digest of a string. -/
def md5HexS (s : String) : String := md5Hex (strBytes s)

mutual

/-- A JSON value as the JS runtime presents it: object fields keep their
insertion order. -/
inductive Json where
  | str (s : String)
  | num (n : Int)
  | bool (b : Bool)
  | null
  | arr (elems : JsonList)
  | obj (fields : JsonFields)

/-- A list of JSON array elements. -/
inductive JsonList where
  | nil
  | cons (hd : Json) (tl : JsonList)

/-- An ordered list of JSON object fields. -/
inductive JsonFields where
  | nil
  | cons (key : String) (val : Json) (tl : JsonFields)

end

/-- Build a `JsonList` from a Lean list. -/
def JsonList.ofList : List Json → JsonList
  | [] => .nil
  | j :: rest => .cons j (JsonList.ofList rest)

/-- Build ordered object fields from a Lean list. -/
def JsonFields.ofList : List (String × Json) → JsonFields
  | [] => .nil
  | (k, v) :: rest => .cons k v (JsonFields.ofList rest)

/-- JSON array literal helper. -/
def Json.jarr (l : List Json) : Json := .arr (JsonList.ofList l)

/-- JSON object literal helper. -/
def Json.jobj (l : List (String × Json)) : Json := .obj (JsonFields.ofList l)

/-- JSON string escaping as `JSON.stringify` performs it. -/
def escapeChar (c : Char) : List Char :=
  if c = '"' then ['\\', '"']
  else if c = '\\' then ['\\', '\\']
  else if c = '\n' then ['\\', 'n']
  else if c = '\r' then ['\\', 'r']
  else if c = '\t' then ['\\', 't']
  else if c = '\x08' then ['\\', 'b']
  else if c = '\x0c' then ['\\', 'f']
  else if c.toNat < 32 then
    ['\\', 'u', '0', '0',
     ("0123456789abcdef").toList.getD (c.toNat / 16) ('0'),
     ("0123456789abcdef").toList.getD (c.toNat % 16) ('0')]
  else [c]

/-- Escape every character of a string. -/
def escapeString (s : String) : String :=
  String.mk (s.toList.flatMap escapeChar)

mutual

/-- `JSON.stringify` without spacing: fields in presentation order. -/
def stringify : Json → String
  | .str s => ("\"") ++ escapeString s ++ ("\"")
  | .num n => toString n
  | .bool b => if b then ("true") else ("false")
  | .null => ("null")
  | .arr es => ("[") ++ stringifyArr es ++ ("]")
  | .obj fs => ("\x7b") ++ stringifyFields fs ++ ("\x7d")

/-- Comma-separated serialization of array elements. -/
def stringifyArr : JsonList → String
  | .nil => ("")
  | .cons j .nil => stringify j
  | .cons j rest => stringify j ++ (",") ++ stringifyArr rest

/-- Comma-separated serialization of object fields in presentation order. -/
def stringifyFields : JsonFields → String
  | .nil => ("")
  | .cons k v .nil => ("\"") ++ escapeString k ++ ("\":") ++ stringify v
  | .cons k v rest =>
      ("\"") ++ escapeString k ++ ("\":") ++ stringify v ++ (",") ++ stringifyFields rest

end

/-- Byte-order comparison of character lists (computable total order). -/
def charListLe : List Char → List Char → Bool
  | [], _ => true
  | _ :: _, [] => false
  | c :: s, d :: t =>
      if c.toNat < d.toNat then true
      else if d.toNat < c.toNat then false
      else charListLe s t

/-- Byte-order comparison of strings. -/
def strLe (a b : String) : Bool := charListLe a.toList b.toList

/-- Insert a field into a key-sorted field list. -/
def insertField (k : String) (v : Json) : JsonFields → JsonFields
  | .nil => .cons k v .nil
  | .cons k2 v2 rest =>
      if strLe k k2 then .cons k v (.cons k2 v2 rest) else .cons k2 v2 (insertField k v rest)

/-- Sort fields by key (insertion sort). -/
def sortFields : JsonFields → JsonFields
  | .nil => .nil
  | .cons k v rest => insertField k v (sortFields rest)

mutual

/-- Key-order canonical form: object fields sorted by key at every level. -/
def canonicalize : Json → Json
  | .arr es => .arr (canonList es)
  | .obj fs => .obj (sortFields (canonFields fs))
  | j => j
termination_by structural j => j

/-- Canonicalize each array element. -/
def canonList : JsonList → JsonList
  | .nil => .nil
  | .cons j rest => .cons (canonicalize j) (canonList rest)
termination_by structural l => l

/-- Canonicalize each field value. -/
def canonFields : JsonFields → JsonFields
  | .nil => .nil
  | .cons k v rest => .cons k (canonicalize v) (canonFields rest)
termination_by structural f => f

end

/-- Two JSON presentations carry the same content when their canonical forms
serialize identically. -/
def sameContent (j1 j2 : Json) : Bool :=
  stringify (canonicalize j1) == stringify (canonicalize j2)

/-- The `options` object literal serialized inside `generateCacheKey`
(`{ width, height, theme, title, backgroundColor }`; `JSON.stringify` omits
the `title` key when the value is `undefined`). -/
def optionsJson (width height : Nat) (theme : String) (title : Option String)
    (backgroundColor : String) : Json :=
  Json.jobj ([(("width"), Json.num (width : Int)), (("height"), Json.num (height : Int)),
      (("theme"), Json.str theme)] ++
    (match title with
     | some t => [(("title"), Json.str t)]
     | none => []) ++
    [(("backgroundColor"), Json.str backgroundColor)])

/-- `ChartGeneratorService.generateCacheKey`: the key embeds chart type,
width, height and theme, followed by the MD5 digest of
`JSON.stringify({ data, options })` in the caller's field order. -/
def generateCacheKey (chartType : String) (dataJson : Json) (width height : Nat)
    (theme : String) (title : Option String) (backgroundColor : String) : String :=
  let dataHash := md5HexS (stringify (Json.jobj
    [(("data"), dataJson),
     (("options"), optionsJson width height theme title backgroundColor)]))
  ("chart_cache:") ++ chartType ++ (":") ++ toString width ++ (":") ++ toString height ++
    (":") ++ theme ++ (":") ++ dataHash


/-- A `string | string[]` color value as JSON. -/
def colorsToJson : Colors → Json
  | .single s => .str s
  | .many xs => Json.jarr (xs.map Json.str)

/-- One dataset as the JS runtime serializes it, fields in the declaration
order of the `Dataset` interface, optional absent fields omitted. -/
def datasetToJson (ds : InputDataset) : Json :=
  Json.jobj ([(("label"), Json.str ds.label),
      (("data"), Json.jarr (ds.data.map Json.num))] ++
    (match ds.backgroundColor with
     | some c => [(("backgroundColor"), colorsToJson c)]
     | none => []) ++
    (match ds.borderColor with
     | some c => [(("borderColor"), colorsToJson c)]
     | none => []) ++
    (match ds.borderWidth with
     | some n => [(("borderWidth"), Json.num (n : Int))]
     | none => []))

/-- A chart data value as JSON, in one fixed field order.  At the JS runtime
the field order is whatever the caller constructed, which is why
`generateCacheKey` is also analyzed over raw `Json` presentations. -/
def chartDataToJson (d : ChartData) : Json :=
  Json.jobj ((match d.labels with
     | some ls => [(("labels"), Json.jarr (ls.map Json.str))]
     | none => []) ++
    [(("datasets"), Json.jarr (d.datasets.map datasetToJson))])

/-- The outcomes the redis client would produce for each operation
`generateChart` can issue, in program order: the availability ping and `get`
of the cache probe, the reconnect pair of its catch handler, then the
availability ping, `setEx`, reconnect pair and `setEx` retry of the cache
store step. -/
structure CacheWorld where
  ping1 : Exc Unit
  clientGet : String → Exc (Option String)
  reconnDisc1 : Exc Unit
  reconnConn1 : Exc Unit
  ping2 : Exc Unit
  clientSet : Exc Unit
  reconnDisc2 : Exc Unit
  reconnConn2 : Exc Unit
  clientSetRetry : Exc Unit

/-- The outcomes of the puppeteer backend for each step `generateChart` can
issue: launch, page creation, viewport sizing, the two content-load waits,
the per-attempt render-marker poll, and the screenshot capture. -/
structure EngineWorld where
  launch : Exc Unit
  newPage : Exc Unit
  setViewport : Exc Unit
  contentNetworkIdle : Exc Unit
  contentDomLoaded : Exc Unit
  waitForSelector : Nat → Exc Unit
  screenshot : Exc Bytes

/-- The arguments of `generateChart` (options fields optional, as in the
source's options object). -/
structure GenArgs where
  chartType : String
  data : ChartData
  width : Option Nat
  height : Option Nat
  theme : Option String
  title : Option String
  backgroundColor : Option String

/-- The observable outcome of one `generateChart` run: the returned value or
thrown error, plus counters of successful browser launches, `browser.close()`
attempts, disconnect-reconnect attempts on the cache connection, render-marker
poll attempts, the sleeps between polls, and client `setEx` attempts. -/
structure RunResult where
  result : Exc Bytes
  launches : Nat
  closeAttempts : Nat
  reconnectAttempts : Nat
  pollAttempts : Nat
  sleepsMs : List Nat
  clientSetAttempts : Nat

/-- The render-wait retry loop (lines 242-260 of the caching variant): poll
the selector; on success stop; on failure count the retry and, unless the
retry budget is exhausted (then the loop throws), sleep 1000 ms and poll
again.  Returns (polls made, sleeps performed, marker appeared). -/
def renderWaitGo (sel : Nat → Exc Unit) : Nat → Nat → List Nat → Nat × List Nat × Bool
  | attempt, 0, sleeps => (attempt, sleeps, false)
  | attempt, remaining + 1, sleeps =>
      match sel attempt with
      | .ok _ => (attempt + 1, sleeps, true)
      | .error _ =>
          if remaining = 0 then (attempt + 1, sleeps, false)
          else renderWaitGo sel (attempt + 1) remaining (sleeps ++ [1000])

/-- The error-message classification of `generateChart`'s outer catch. -/
def classifyError (msg : String) : String :=
  if containsSubstrS msg ("Target closed") then
    ("Browser target closed unexpectedly. This may be due to resource constraints or timeout.")
  else if containsSubstrS msg ("Protocol error") then
    ("Browser protocol error. The browser instance may have crashed.")
  else ("Chart generation failed: ") ++ msg

/-- The option defaults `generateChart` resolves on entry (width 800, height
600, theme light, background from the theme), with the title filtered by the
`...(title && { title })` spread used for the Chart.js configuration. -/
def resolvedOpts (args : GenArgs) : RenderOpts :=
  { width := args.width.getD 800,
    height := args.height.getD 600,
    theme := args.theme.getD ("light"),
    title := (match args.title with
              | some t => if t == ("") then none else some t
              | none => none),
    backgroundColor := args.backgroundColor.getD
      (if (args.theme.getD ("light")) == ("dark") then ("#1a1a1a") else ("#ffffff")) }

/-- The cache key `generateChart` derives after resolving option defaults
(the raw `title` is passed to the key derivation, not the filtered one). -/
def derivedKey (args : GenArgs) : String :=
  generateCacheKey args.chartType (chartDataToJson args.data)
    (resolvedOpts args).width (resolvedOpts args).height (resolvedOpts args).theme
    args.title (resolvedOpts args).backgroundColor

/-- The cache probe of `generateChart` (lines 148-170): inside try/catch,
check availability, then `get`; the catch handler performs a
disconnect-reconnect attempt and falls through to generation.  Returns the
cache hit (if any) and the number of reconnect attempts performed. -/
def cacheReadPhase (cw : CacheWorld) (key : String) : Option Bytes × Nat :=
  let attempt : Exc (Option Bytes) :=
    if RedisService.isAvailable cw.ping1 then
      RedisService.get (cw.clientGet key)
    else
      .ok none
  match attempt with
  | .ok v => (v, 0)
  | .error _ =>
      let _disc := RedisService.disconnect cw.reconnDisc1
      let _conn := jsTry (RedisService.connect cw.reconnConn1) (fun _ => .ok ())
      (none, 1)

/-- The cache store step of `generateChart` (lines 275-295): inside
try/catch, check availability and `set`; the catch handler disconnects,
reconnects, and retries the `set` once.  Returns (client `setEx` attempts,
reconnect attempts). -/
def cacheStorePhase (cw : CacheWorld) : Nat × Nat :=
  let avail := RedisService.isAvailable cw.ping2
  let attempt : Exc Unit := if avail then RedisService.set cw.clientSet else .ok ()
  let baseAttempts := if avail then 1 else 0
  match attempt with
  | .ok _ => (baseAttempts, 0)
  | .error _ =>
      let _disc := RedisService.disconnect cw.reconnDisc2
      match RedisService.connect cw.reconnConn2 with
      | .ok _ =>
          let _retry := RedisService.set cw.clientSetRetry
          (baseAttempts + 1, 1)
      | .error _ => (baseAttempts, 1)

/-- `ChartGeneratorService.generateChart` of the caching variant
(`src/services/redis.ts` lines 127-329): resolve option defaults, derive the
cache key, probe the cache and return a hit immediately; otherwise launch the
browser, open a page, size the viewport (failure tolerated), build the
Chart.js configuration, load content (falling back from network-idle to
dom-content-loaded), run the bounded render-wait loop, capture the
screenshot, store it in the cache best-effort, and return the bytes.  Thrown
errors are classified by the outer catch; the finally block records one close
attempt whenever a browser was launched.  Document generation itself is pure
string interpolation with no failure modes and no further observable effect,
so it contributes nothing to the run outcome. -/
def generateChart (cw : CacheWorld) (ew : EngineWorld) (args : GenArgs) : RunResult :=
  match cacheReadPhase cw (derivedKey args) with
  | (some cached, recon) =>
      { result := .ok cached, launches := 0, closeAttempts := 0,
        reconnectAttempts := recon, pollAttempts := 0, sleepsMs := [],
        clientSetAttempts := 0 }
  | (none, recon) =>
      match ew.launch with
      | .error e =>
          { result := .error (classifyError e), launches := 0, closeAttempts := 0,
            reconnectAttempts := recon, pollAttempts := 0, sleepsMs := [],
            clientSetAttempts := 0 }
      | .ok _ =>
          match ew.newPage with
          | .error e =>
              { result := .error (classifyError e), launches := 1, closeAttempts := 1,
                reconnectAttempts := recon, pollAttempts := 0, sleepsMs := [],
                clientSetAttempts := 0 }
          | .ok _ =>
              let _viewport := jsTry ew.setViewport (fun _ => .ok ())
              match createChartJsConfig args.chartType args.data (resolvedOpts args) with
              | .error e =>
                  { result := .error (classifyError e), launches := 1, closeAttempts := 1,
                    reconnectAttempts := recon, pollAttempts := 0, sleepsMs := [],
                    clientSetAttempts := 0 }
              | .ok _config =>
                  match jsTry ew.contentNetworkIdle (fun _ => ew.contentDomLoaded) with
                  | .error e =>
                      { result := .error (classifyError e), launches := 1,
                        closeAttempts := 1, reconnectAttempts := recon,
                        pollAttempts := 0, sleepsMs := [], clientSetAttempts := 0 }
                  | .ok _ =>
                      match renderWaitGo ew.waitForSelector 0 3 [] with
                      | (polls, sleeps, rendered) =>
                          if rendered then
                            match ew.screenshot with
                            | .error e =>
                                { result := .error (classifyError (("Screenshot failed: ") ++ e)),
                                  launches := 1, closeAttempts := 1,
                                  reconnectAttempts := recon, pollAttempts := polls,
                                  sleepsMs := sleeps, clientSetAttempts := 0 }
                            | .ok buf =>
                                match cacheStorePhase cw with
                                | (setAtt, recon2) =>
                                    { result := .ok buf, launches := 1, closeAttempts := 1,
                                      reconnectAttempts := recon + recon2,
                                      pollAttempts := polls, sleepsMs := sleeps,
                                      clientSetAttempts := setAtt }
                          else
                            { result := .error
                                (classifyError ("Failed to render chart after 3 attempts")),
                              launches := 1, closeAttempts := 1,
                              reconnectAttempts := recon, pollAttempts := polls,
                              sleepsMs := sleeps, clientSetAttempts := 0 }

/-- A colorless dataset with two data points. -/
def dsPlain (name : String) : InputDataset :=
  { label := name, data := [1, 2], backgroundColor := none, borderColor := none,
    borderWidth := none }

/-- A two-dataset chart data value with no colors specified. -/
def dataTwo : ChartData :=
  { labels := some [("a"), ("b")], datasets := [dsPlain ("one"), dsPlain ("two")] }

/-- Light-theme render options with the default background. -/
def optsLight : RenderOpts :=
  { width := 800, height := 600, theme := ("light"), title := none,
    backgroundColor := ("#ffffff") }

/-- Fallback element for indexing dataset lists. -/
def defaultResolvedDataset : ResolvedDataset :=
  { label := (""), data := [], backgroundColor := .single (""),
    borderColor := .single (""), borderWidth := 0 }

/-- The configuration the code emits for a 2-dataset colorless light-theme
bar chart: every dataset carries the entire light palette. -/
def cfgTwoLight : ChartJsConfig :=
  { type := ("bar"), labels := [("a"), ("b")],
    datasets := [{ label := ("one"), data := [1, 2],
                   backgroundColor := .many lightPaletteColors,
                   borderColor := .many lightPaletteColors, borderWidth := 2 },
                 { label := ("two"), data := [1, 2],
                   backgroundColor := .many lightPaletteColors,
                   borderColor := .many lightPaletteColors, borderWidth := 2 }],
    legendDisplay := true, legendLabelColor := ("#000000"), titleDisplay := false,
    titleText := none, titleColor := ("#000000"),
    scales := .cartesian { tickColor := ("#000000"), tickFontSize := 11, gridColor := ("#e5e7eb") }
      { tickColor := ("#000000"), tickFontSize := 11, gridColor := ("#e5e7eb") } }

/-- The same configuration for chart type `mixed`: the emitted type is
`line`. -/
def cfgTwoMixed : ChartJsConfig :=
  { cfgTwoLight with type := ("line") }

/-- A dataset JSON presentation with the inner dataset object serialized as
`{"label":...,"data":...}`. -/
def jsonPresentation1 : Json :=
  Json.jobj [(("labels"), Json.jarr [.str ("jan")]),
    (("datasets"), Json.jarr [Json.jobj [(("label"), .str ("s")),
      (("data"), Json.jarr [.num 1])]])]

/-- The same chart data as `jsonPresentation1` with the inner dataset object
serialized in the opposite key order `{"data":...,"label":...}`. -/
def jsonPresentation2 : Json :=
  Json.jobj [(("labels"), Json.jarr [.str ("jan")]),
    (("datasets"), Json.jarr [Json.jobj [(("data"), Json.jarr [.num 1]),
      (("label"), .str ("s"))]])]

/-- A cache world whose probe succeeds and whose stored entry is the base64
text `AAAA` (three zero bytes). -/
def cwHit : CacheWorld :=
  { ping1 := .ok (), clientGet := fun _ => .ok (some ("AAAA")),
    reconnDisc1 := .ok (), reconnConn1 := .ok (), ping2 := .ok (),
    clientSet := .ok (), reconnDisc2 := .ok (), reconnConn2 := .ok (),
    clientSetRetry := .ok () }

/-- A cache world in which every backend operation throws. -/
def cwAllFail : CacheWorld :=
  { ping1 := .error ("connection refused"),
    clientGet := fun _ => .error ("connection refused"),
    reconnDisc1 := .error ("connection refused"),
    reconnConn1 := .error ("connection refused"),
    ping2 := .error ("connection refused"),
    clientSet := .error ("connection refused"),
    reconnDisc2 := .error ("connection refused"),
    reconnConn2 := .error ("connection refused"),
    clientSetRetry := .error ("connection refused") }

/-- A cache world whose ping succeeds but whose `get` and `setEx` throw. -/
def cwGetFails : CacheWorld :=
  { ping1 := .ok (), clientGet := fun _ => .error ("read timeout"),
    reconnDisc1 := .ok (), reconnConn1 := .ok (), ping2 := .ok (),
    clientSet := .error ("write timeout"), reconnDisc2 := .ok (),
    reconnConn2 := .ok (), clientSetRetry := .ok () }

/-- An engine world in which every backend step succeeds and the screenshot
yields three bytes. -/
def ewAllOk : EngineWorld :=
  { launch := .ok (), newPage := .ok (), setViewport := .ok (),
    contentNetworkIdle := .ok (), contentDomLoaded := .ok (),
    waitForSelector := fun _ => .ok (), screenshot := .ok [1, 2, 3] }

/-- An engine world in which the render-complete marker never appears. -/
def ewNeverRenders : EngineWorld :=
  { launch := .ok (), newPage := .ok (), setViewport := .ok (),
    contentNetworkIdle := .ok (), contentDomLoaded := .ok (),
    waitForSelector := fun _ => .error ("TimeoutError: waiting for selector"),
    screenshot := .ok [1, 2, 3] }

/-- A small single-dataset bar-chart request with default options. -/
def argsSample : GenArgs :=
  { chartType := ("bar"),
    data := { labels := some [("jan")],
              datasets := [{ label := ("s"), data := [1], backgroundColor := none,
                             borderColor := none, borderWidth := none }] },
    width := none, height := none, theme := none, title := none,
    backgroundColor := none }

theorem b64_val_char : ∀ n, n < 64 → b64Val (b64Char n) = n := by decide

theorem b64_char_ne_pad : ∀ n, n < 64 → b64Char n ≠ '=' := by decide

/-- Base64 decoding inverts encoding on byte lists. -/
theorem b64_roundtrip (b : Bytes) (hb : ∀ x ∈ b, x < 256) :
    bufferFromB64Chars (bufferToBase64 b) = b := by
  match b with
  | [] => rfl
  | [x] =>
    have hx : x < 256 := hb x (by simp)
    have h1 := b64_val_char (x / 4) (by omega)
    have h2 := b64_val_char (x % 4 * 16) (by omega)
    simp only [bufferToBase64, bufferFromB64Chars, if_true, ite_true, h1, h2,
      List.cons.injEq, and_true]
    omega
  | [x, y] =>
    have hx : x < 256 := hb x (by simp)
    have hy : y < 256 := hb y (by simp)
    have h1 := b64_val_char (x / 4) (by omega)
    have h2 := b64_val_char (x % 4 * 16 + y / 16) (by omega)
    have h3 := b64_val_char (y % 16 * 4) (by omega)
    have hc := b64_char_ne_pad (y % 16 * 4) (by omega)
    simp only [bufferToBase64, bufferFromB64Chars, hc, if_true, ite_true, if_false,
      ite_false, h1, h2, h3, List.cons.injEq, and_true]
    refine ⟨by omega, by omega⟩
  | x :: y :: z :: rest =>
    have hx : x < 256 := hb x (by simp)
    have hy : y < 256 := hb y (by simp)
    have hz : z < 256 := hb z (by simp)
    have ih := b64_roundtrip rest (fun t ht => hb t (by simp [ht]))
    have h1 := b64_val_char (x / 4) (by omega)
    have h2 := b64_val_char (x % 4 * 16 + y / 16) (by omega)
    have h3 := b64_val_char (y % 16 * 4 + z / 64) (by omega)
    have h4 := b64_val_char (z % 64) (by omega)
    have hc := b64_char_ne_pad (y % 16 * 4 + z / 64) (by omega)
    have hd := b64_char_ne_pad (z % 64) (by omega)
    simp only [bufferToBase64, bufferFromB64Chars, hc, hd, if_false, ite_false,
      h1, h2, h3, h4, ih, List.cons.injEq, and_true]
    refine ⟨by omega, by omega, by omega⟩
termination_by b.length

/-- Reference check of the MD5 model: the digest of the empty message. -/
theorem md5_empty_digest : md5HexS ("") = ("d41d8cd98f00b204e9800998ecf8427e") := by decide

/-- Reference check of the MD5 model: the RFC 1321 digest of `abc`. -/
theorem md5_abc_digest : md5HexS ("abc") = ("900150983cd24fb0d6963f7d28e17f72") := by decide

theorem globMatchAux_congr (f1 : Nat) :
    ∀ f2 p s, p.length + s.length < f1 → p.length + s.length < f2 →
      globMatchAux f1 p s = globMatchAux f2 p s := by
  induction f1 with
  | zero => intro f2 p s h1 h2; omega
  | succ n ih =>
    intro f2 p s h1 h2
    match f2, h2 with
    | m + 1, h2 =>
      match p with
      | [] => simp [globMatchAux]
      | c :: p =>
        by_cases hc : c = '*'
        · subst hc
          match s with
          | [] =>
            show (if ('*' : Char) = '*' then globMatchAux n p [] || false else false) =
              (if ('*' : Char) = '*' then globMatchAux m p [] || false else false)
            rw [if_pos rfl, if_pos rfl]
            have e1 : globMatchAux n p [] = globMatchAux m p [] := by
              apply ih
              · simp only [List.length_cons, List.length_nil] at h1 ⊢; omega
              · simp only [List.length_cons, List.length_nil] at h2 ⊢; omega
            rw [e1]
          | d :: s2 =>
            show (if ('*' : Char) = '*' then
                globMatchAux n p (d :: s2) || globMatchAux n ('*' :: p) s2 else
                ('*' == d && globMatchAux n p s2)) =
              (if ('*' : Char) = '*' then
                globMatchAux m p (d :: s2) || globMatchAux m ('*' :: p) s2 else
                ('*' == d && globMatchAux m p s2))
            rw [if_pos rfl, if_pos rfl]
            have e1 : globMatchAux n p (d :: s2) = globMatchAux m p (d :: s2) := by
              apply ih
              · simp only [List.length_cons, List.length_nil] at h1 ⊢; omega
              · simp only [List.length_cons, List.length_nil] at h2 ⊢; omega
            have e2 : globMatchAux n ('*' :: p) s2 = globMatchAux m ('*' :: p) s2 := by
              apply ih
              · simp only [List.length_cons, List.length_nil] at h1 ⊢; omega
              · simp only [List.length_cons, List.length_nil] at h2 ⊢; omega
            rw [e1, e2]
        · match s with
          | [] =>
            show (if c = '*' then globMatchAux n p [] || false else false) =
              (if c = '*' then globMatchAux m p [] || false else false)
            rw [if_neg hc, if_neg hc]
          | d :: s2 =>
            show (if c = '*' then
                globMatchAux n p (d :: s2) || globMatchAux n (c :: p) s2 else
                (c == d && globMatchAux n p s2)) =
              (if c = '*' then
                globMatchAux m p (d :: s2) || globMatchAux m (c :: p) s2 else
                (c == d && globMatchAux m p s2))
            rw [if_neg hc, if_neg hc]
            have e3 : globMatchAux n p s2 = globMatchAux m p s2 := by
              apply ih
              · simp only [List.length_cons, List.length_nil] at h1 ⊢; omega
              · simp only [List.length_cons, List.length_nil] at h2 ⊢; omega
            rw [e3]

theorem globMatchAux_eq_globMatch (f : Nat) (p s : List Char)
    (hf : p.length + s.length < f) : globMatchAux f p s = globMatch p s := by
  unfold globMatch
  exact globMatchAux_congr f (p.length + s.length + 1) p s hf (by omega)

theorem globMatch_nil (s : List Char) : globMatch [] s = s.isEmpty := rfl

theorem globMatch_star_nil (p : List Char) : globMatch ('*' :: p) [] = globMatch p [] := by
  have key : globMatch ('*' :: p) [] =
      (globMatchAux (('*' :: p).length + ([] : List Char).length) p [] || false) := rfl
  rw [key, Bool.or_false]
  exact globMatchAux_eq_globMatch _ _ _ (by simp only [List.length_cons, List.length_nil]; omega)

theorem globMatch_star_cons (p : List Char) (d : Char) (s2 : List Char) :
    globMatch ('*' :: p) (d :: s2) =
      (globMatch p (d :: s2) || globMatch ('*' :: p) s2) := by
  have key : globMatch ('*' :: p) (d :: s2) =
      (globMatchAux (('*' :: p).length + (d :: s2).length) p (d :: s2) ||
        globMatchAux (('*' :: p).length + (d :: s2).length) ('*' :: p) s2) := rfl
  rw [key, globMatchAux_eq_globMatch _ _ _ (by simp only [List.length_cons, List.length_nil]; omega), globMatchAux_eq_globMatch _ _ _ (by simp only [List.length_cons, List.length_nil]; omega)]

theorem globMatch_lit_nil (c : Char) (p : List Char) (hc : c ≠ '*') :
    globMatch (c :: p) [] = false := by
  have key : globMatch (c :: p) [] =
      (if c = '*' then
        (globMatchAux ((c :: p).length + ([] : List Char).length) p [] || false)
      else false) := rfl
  rw [key, if_neg hc]

theorem globMatch_lit_cons (c : Char) (p : List Char) (d : Char) (s2 : List Char)
    (hc : c ≠ '*') :
    globMatch (c :: p) (d :: s2) = (c == d && globMatch p s2) := by
  have key : globMatch (c :: p) (d :: s2) =
      (if c = '*' then
        (globMatchAux ((c :: p).length + (d :: s2).length) p (d :: s2) ||
          globMatchAux ((c :: p).length + (d :: s2).length) (c :: p) s2)
      else (c == d && globMatchAux ((c :: p).length + (d :: s2).length) p s2)) := rfl
  rw [key, if_neg hc, globMatchAux_eq_globMatch _ _ _ (by simp only [List.length_cons, List.length_nil]; omega)]




theorem startsWithChars_append (w s : List Char) : startsWithChars (w ++ s) w = true := by
  induction w with
  | nil => simp [startsWithChars]
  | cons c w ih => simp [startsWithChars, ih]

theorem containsChars_nil_sub (s : List Char) : containsChars s [] = true := by
  match s with
  | [] => simp [containsChars, startsWithChars]
  | c :: s2 => simp [containsChars, startsWithChars]

theorem containsChars_append_left (s1 s2 sub : List Char)
    (h : containsChars s2 sub = true) : containsChars (s1 ++ s2) sub = true := by
  induction s1 with
  | nil => simpa using h
  | cons c s1 ih =>
    simp only [List.cons_append, containsChars, Bool.or_eq_true]
    right
    exact ih

theorem containsChars_of_prefix (w k : List Char) : containsChars (w ++ k) w = true := by
  match w with
  | [] => simpa using containsChars_nil_sub k
  | c :: w2 =>
    simp only [List.cons_append, containsChars, Bool.or_eq_true]
    left
    exact startsWithChars_append (c :: w2) k

theorem globMatch_star_elim (p s : List Char) (h : globMatch ('*' :: p) s = true) :
    ∃ s1 s2, s = s1 ++ s2 ∧ globMatch p s2 = true := by
  match s with
  | [] =>
    rw [globMatch_star_nil] at h
    exact ⟨[], [], rfl, h⟩
  | d :: s2 =>
    rw [globMatch_star_cons, Bool.or_eq_true] at h
    rcases h with h1 | h2
    · exact ⟨[], d :: s2, rfl, h1⟩
    · obtain ⟨t1, t2, ht, hm⟩ := globMatch_star_elim p s2 h2
      exact ⟨d :: t1, t2, by simp [ht], hm⟩
termination_by s.length

theorem globMatch_star_intro (p s1 s2 : List Char) (h : globMatch p s2 = true) :
    globMatch ('*' :: p) (s1 ++ s2) = true := by
  induction s1 with
  | nil =>
    match s2 with
    | [] => simp only [List.nil_append, globMatch_star_nil]; exact h
    | d :: t => simp only [List.nil_append, globMatch_star_cons, Bool.or_eq_true]; left; exact h
  | cons c s1 ih =>
    simp only [List.cons_append, globMatch_star_cons, Bool.or_eq_true]
    right
    exact ih

theorem globMatch_lit_elim (w p s : List Char) (hw : ('*') ∉ w)
    (h : globMatch (w ++ p) s = true) :
    ∃ s2, s = w ++ s2 ∧ globMatch p s2 = true := by
  induction w generalizing s with
  | nil => exact ⟨s, rfl, by simpa using h⟩
  | cons c w ih =>
    have hc : c ≠ '*' := fun hcc => hw (by simp [hcc])
    have hw2 : ('*') ∉ w := fun hww => hw (List.mem_cons_of_mem c hww)
    match s with
    | [] =>
      rw [List.cons_append, globMatch_lit_nil c (w ++ p) hc] at h
      exact absurd h (by simp)
    | d :: s2 =>
      rw [List.cons_append, globMatch_lit_cons c (w ++ p) d s2 hc, Bool.and_eq_true] at h
      obtain ⟨hcd, hm⟩ := h
      obtain ⟨t, ht, hmt⟩ := ih s2 hw2 hm
      refine ⟨t, ?_, hmt⟩
      have hcd2 : c = d := by simpa using hcd
      simp [ht, hcd2]

theorem globMatch_lit_intro (w p s : List Char) (h : globMatch p s = true) :
    globMatch (w ++ p) (w ++ s) = true := by
  induction w with
  | nil => simpa using h
  | cons c w ih =>
    by_cases hc : c = '*'
    · subst hc
      simp only [List.cons_append, globMatch_star_cons, Bool.or_eq_true]
      right
      have hsi := globMatch_star_intro (w ++ p) [] (w ++ s) ih
      simpa using hsi
    · simp only [List.cons_append, globMatch_lit_cons c (w ++ p) c (w ++ s) hc,
        Bool.and_eq_true]
      exact ⟨by simp, ih⟩

theorem containsChars_cons_right (c : Char) (s sub : List Char)
    (h : containsChars s sub = true) : containsChars (c :: s) sub = true := by
  simp only [containsChars, Bool.or_eq_true]
  right
  exact h



theorem chartCachePattern_toList (h : String) :
    (chartCachePattern h).toList =
      ("chart_cache:").toList ++
        '*' :: ':' :: '*' :: ':' :: '*' :: ':' :: '*' :: ':' :: '*' ::
          (h.toList ++ ['*']) := by
  simp [chartCachePattern, String.toList, String.data_append]

theorem chartCachePattern_match_contains (h k : String)
    (hstar : ('*') ∉ h.toList)
    (hm : globMatchS (chartCachePattern h) k = true) :
    containsChars k.toList h.toList = true := by
  unfold globMatchS at hm
  rw [chartCachePattern_toList] at hm
  obtain ⟨k1, hk1, hm1⟩ := globMatch_lit_elim (("chart_cache:").toList) _ _ (by decide) hm
  obtain ⟨a1, b1, hab1, hm2⟩ := globMatch_star_elim _ _ hm1
  obtain ⟨k2, hk2, hm3⟩ := globMatch_lit_elim ([':']) _ _ (by decide) (by simpa using hm2)
  obtain ⟨a2, b2, hab2, hm4⟩ := globMatch_star_elim _ _ hm3
  obtain ⟨k3, hk3, hm5⟩ := globMatch_lit_elim ([':']) _ _ (by decide) (by simpa using hm4)
  obtain ⟨a3, b3, hab3, hm6⟩ := globMatch_star_elim _ _ hm5
  obtain ⟨k4, hk4, hm7⟩ := globMatch_lit_elim ([':']) _ _ (by decide) (by simpa using hm6)
  obtain ⟨a4, b4, hab4, hm8⟩ := globMatch_star_elim _ _ hm7
  obtain ⟨k5, hk5, hm9⟩ := globMatch_lit_elim ([':']) _ _ (by decide) (by simpa using hm8)
  obtain ⟨a5, b5, hab5, hm10⟩ := globMatch_star_elim _ _ hm9
  obtain ⟨k6, hk6, hm11⟩ := globMatch_lit_elim (h.toList) _ _ hstar hm10
  rw [hk1, hab1, hk2, hab2, hk3, hab3, hk4, hab4, hk5, hab5, hk6]
  apply containsChars_append_left
  apply containsChars_append_left
  apply containsChars_append_left
  apply containsChars_append_left
  apply containsChars_append_left
  apply containsChars_append_left
  apply containsChars_append_left
  apply containsChars_append_left
  apply containsChars_append_left
  apply containsChars_append_left
  exact containsChars_of_prefix (h.toList) k6

theorem chartCachePattern_match_shaped (h ct wd hg th pre post : String) :
    globMatchS (chartCachePattern h)
      ("chart_cache:" ++ ct ++ ":" ++ wd ++ ":" ++ hg ++ ":" ++ th ++ ":" ++ pre ++ h ++ post) =
      true := by
  unfold globMatchS
  rw [chartCachePattern_toList]
  have m0 : globMatch ([] : List Char) ([] : List Char) = true := rfl
  have m1 : globMatch (['*']) post.toList = true := by
    simpa using globMatch_star_intro [] post.toList [] m0
  have m2 := globMatch_lit_intro h.toList (['*']) post.toList m1
  have m3 := globMatch_star_intro (h.toList ++ ['*']) pre.toList _ m2
  have m4 := globMatch_lit_intro ([':']) _ _ m3
  have m5 := globMatch_star_intro _ th.toList _ m4
  have m6 := globMatch_lit_intro ([':']) _ _ m5
  have m7 := globMatch_star_intro _ hg.toList _ m6
  have m8 := globMatch_lit_intro ([':']) _ _ m7
  have m9 := globMatch_star_intro _ wd.toList _ m8
  have m10 := globMatch_lit_intro ([':']) _ _ m9
  have m11 := globMatch_star_intro _ ct.toList _ m10
  have m12 := globMatch_lit_intro (("chart_cache:").toList) _ _ m11
  simpa [String.toList, String.data_append, List.append_assoc] using m12





theorem delPattern_mem (store : CacheStore) (pattern : String) (k v : String) :
    ((k, v) ∈ RedisService.delPattern store pattern) ↔
      ((k, v) ∈ store ∧ globMatchS pattern k = false) := by
  unfold RedisService.delPattern redisKeysMatching
  by_cases hg : 0 < ((store.map Prod.fst).filter (fun s => globMatchS pattern s)).length
  · rw [if_pos hg]
    constructor
    · intro hmem
      rw [List.mem_filter] at hmem
      obtain ⟨hin, hpred⟩ := hmem
      refine ⟨hin, ?_⟩
      by_contra hmm
      have hmt : globMatchS pattern k = true := by
        cases hmk : globMatchS pattern k
        · exact absurd hmk hmm
        · rfl
      have hkin : k ∈ (store.map Prod.fst).filter (fun s => globMatchS pattern s) := by
        rw [List.mem_filter]
        exact ⟨List.mem_map_of_mem Prod.fst hin, hmt⟩
      rw [Bool.not_eq_true'] at hpred
      have hpred2 : (List.filter (fun s => globMatchS pattern s)
          (List.map Prod.fst store)).elem k = false := hpred
      have htrue := List.elem_iff.mpr hkin
      rw [hpred2] at htrue
      exact absurd htrue (by decide)
    · rintro ⟨hin, hmf⟩
      rw [List.mem_filter]
      refine ⟨hin, ?_⟩
      rw [Bool.not_eq_true']
      have hnotin : ¬ k ∈ (store.map Prod.fst).filter (fun s => globMatchS pattern s) := by
        intro hkin
        rw [List.mem_filter] at hkin
        rw [hkin.2] at hmf
        exact absurd hmf (by decide)
      cases hel : (List.filter (fun s => globMatchS pattern s)
          (List.map Prod.fst store)).contains (k, v).1
      · rfl
      · exact absurd (List.elem_iff.mp hel) hnotin
  · rw [if_neg hg]
    have hkeys : (store.map Prod.fst).filter (fun s => globMatchS pattern s) = [] := by
      rw [← List.length_eq_zero]
      omega
    constructor
    · intro hmem
      refine ⟨hmem, ?_⟩
      cases hmk : globMatchS pattern k
      · rfl
      · exfalso
        have hkin : k ∈ (store.map Prod.fst).filter (fun s => globMatchS pattern s) := by
          rw [List.mem_filter]
          exact ⟨List.mem_map_of_mem Prod.fst hmem, hmk⟩
        rw [hkeys] at hkin
        exact List.not_mem_nil k hkin
    · rintro ⟨hmem, _⟩
      exact hmem

theorem invalidateChartCache_mem (store : CacheStore) (h k v : String) :
    ((k, v) ∈ invalidateChartCache store h) ↔
      ((k, v) ∈ store ∧ globMatchS (chartCachePattern h) k = false) :=
  delPattern_mem store (chartCachePattern h) k v


theorem lookup_const_map (P : List String) (names : List String) (ct : String) :
    ((names.map (fun t => (t, P))).lookup ct) = none ∨
      ((names.map (fun t => (t, P))).lookup ct) = some P := by
  induction names with
  | nil => left; rfl
  | cons n ns ih =>
    by_cases hc : ct == n
    · right
      simp [List.lookup, hc]
    · simp only [List.map_cons, List.lookup, hc]
      exact ih

theorem getBackgroundColors_default (ct theme : String)
    (hth : theme = ("light") ∨ theme = ("dark")) :
    getBackgroundColors none ct theme =
      .ok (.many (if theme == ("dark") then darkPaletteColors else lightPaletteColors)) := by
  rcases hth with h | h <;> subst h
  · have hlk : colorPalettes.lookup ("light") =
        some (chartTypeNames.map (fun t => (t, lightPaletteColors))) := by
      simp [colorPalettes, List.lookup]
    simp only [getBackgroundColors, colorsTruthy, Bool.false_eq_true, if_false, hlk]
    rcases lookup_const_map lightPaletteColors chartTypeNames ct with hnone | hsome
    · rw [hnone]
      simp [List.lookup, chartTypeNames]
    · rw [hsome]
      simp
  · have hlk : colorPalettes.lookup ("dark") =
        some (chartTypeNames.map (fun t => (t, darkPaletteColors))) := by
      simp [colorPalettes, List.lookup]
    simp only [getBackgroundColors, colorsTruthy, Bool.false_eq_true, if_false, hlk]
    rcases lookup_const_map darkPaletteColors chartTypeNames ct with hnone | hsome
    · rw [hnone]
      simp [List.lookup, chartTypeNames]
    · rw [hsome]
      simp

theorem resolveDataset_default (ct theme : String)
    (hth : theme = ("light") ∨ theme = ("dark")) (ds : InputDataset)
    (hbg : ds.backgroundColor = none) (hbc : ds.borderColor = none)
    (hbw : ds.borderWidth = none) :
    resolveDataset ct theme ds = .ok
      { label := ds.label, data := ds.data,
        backgroundColor :=
          .many (if theme == ("dark") then darkPaletteColors else lightPaletteColors),
        borderColor :=
          .many (if theme == ("dark") then darkPaletteColors else lightPaletteColors),
        borderWidth := 2 } := by
  unfold resolveDataset
  rw [hbg, hbc, hbw]
  rw [show getBorderColors none ct theme = getBackgroundColors none ct theme from rfl]
  rw [getBackgroundColors_default ct theme hth]
  rfl

theorem resolveDataset_ok (ct theme : String)
    (hth : theme = ("light") ∨ theme = ("dark")) (ds : InputDataset) :
    ∃ r, resolveDataset ct theme ds = .ok r := by
  have hbg : ∃ c, getBackgroundColors ds.backgroundColor ct theme = .ok c := by
    unfold getBackgroundColors
    by_cases ht : colorsTruthy ds.backgroundColor
    · rw [if_pos ht]
      exact ⟨_, rfl⟩
    · rw [if_neg ht]
      have := getBackgroundColors_default ct theme hth
      unfold getBackgroundColors at this
      rw [if_neg (by simp [colorsTruthy])] at this
      rw [this]
      exact ⟨_, rfl⟩
  have hbc : ∃ c, getBorderColors ds.borderColor ct theme = .ok c := by
    unfold getBorderColors
    by_cases ht : colorsTruthy ds.borderColor
    · rw [if_pos ht]
      exact ⟨_, rfl⟩
    · rw [if_neg ht]
      rw [getBackgroundColors_default ct theme hth]
      exact ⟨_, rfl⟩
  obtain ⟨c1, hc1⟩ := hbg
  obtain ⟨c2, hc2⟩ := hbc
  have hres : resolveDataset ct theme ds = .ok
      { label := ds.label, data := ds.data, backgroundColor := c1, borderColor := c2,
        borderWidth :=
          match ds.borderWidth with
          | some n => if n = 0 then 2 else n
          | none => 2 } := by
    unfold resolveDataset
    simp only [hc1, hc2]
    rfl
  exact ⟨_, hres⟩

theorem excMapM_ok {α β : Type} (f : α → Exc β) (l : List α)
    (h : ∀ a ∈ l, ∃ b, f a = .ok b) : ∃ r, l.mapM f = .ok r := by
  induction l with
  | nil => exact ⟨[], rfl⟩
  | cons a rest ih =>
    obtain ⟨b, hb⟩ := h a (by simp)
    obtain ⟨r, hr⟩ := ih (fun x hx => h x (by simp [hx]))
    refine ⟨b :: r, ?_⟩
    rw [List.mapM_cons, hb]
    simp only [hr]
    rfl

theorem excMapM_get {α β : Type} (f : α → Exc β) (l : List α) (r : List β)
    (hr : l.mapM f = .ok r) :
    r.length = l.length ∧
      ∀ i (hi : i < l.length) (hi2 : i < r.length),
        f (l.get ⟨i, hi⟩) = .ok (r.get ⟨i, hi2⟩) := by
  induction l generalizing r with
  | nil =>
    simp only [List.mapM_nil] at hr
    cases hr
    exact ⟨rfl, fun i hi hi2 => absurd hi (by simp)⟩
  | cons a rest ih =>
    rw [List.mapM_cons] at hr
    cases hfa : f a with
    | error e => rw [hfa] at hr; exact absurd hr (by simp [Bind.bind, Except.bind])
    | ok b =>
      rw [hfa] at hr
      cases hrest : rest.mapM f with
      | error e =>
        rw [hrest] at hr
        exact absurd hr (by simp [Bind.bind, Except.bind, Pure.pure])
      | ok rr =>
        rw [hrest] at hr
        have : b :: rr = r := by
          have := hr
          simp only [Bind.bind, Except.bind, Pure.pure, Except.pure] at this
          cases this
          rfl
        subst this
        obtain ⟨hlen, hget⟩ := ih rr hrest
        refine ⟨by simp [hlen], ?_⟩
        intro i hi hi2
        match i with
        | 0 => simpa using hfa
        | j + 1 =>
          have hj : j < rest.length := by simpa using hi
          have hj2 : j < rr.length := by simpa using hi2
          simpa using hget j hj hj2

theorem createChartJsConfig_ok (ct : String) (d : ChartData) (opts : RenderOpts)
    (hth : opts.theme = ("light") ∨ opts.theme = ("dark")) :
    ∃ cfg, createChartJsConfig ct d opts = .ok cfg := by
  obtain ⟨r, hr⟩ := excMapM_ok (resolveDataset ct opts.theme) d.datasets
    (fun ds _ => resolveDataset_ok ct opts.theme hth ds)
  have hres : createChartJsConfig ct d opts = .ok
      { type := mapCustomChartType ct,
        labels := d.labels.getD [],
        datasets := r,
        legendDisplay := d.datasets.length > 1,
        legendLabelColor := if opts.theme == ("dark") then ("#ffffff") else ("#000000"),
        titleDisplay := !((opts.title.getD ("")) == ("")),
        titleText := opts.title,
        titleColor := if opts.theme == ("dark") then ("#ffffff") else ("#000000"),
        scales := getScaleOptions ct opts.theme } := by
    unfold createChartJsConfig
    simp only [hr]
    rfl
  exact ⟨_, hres⟩

theorem createChartJsConfig_elim (ct : String) (d : ChartData) (opts : RenderOpts)
    (cfg : ChartJsConfig) (h : createChartJsConfig ct d opts = .ok cfg) :
    d.datasets.mapM (resolveDataset ct opts.theme) = .ok cfg.datasets ∧
      cfg.type = mapCustomChartType ct ∧
      cfg.labels = d.labels.getD [] ∧
      cfg.legendDisplay = (d.datasets.length > 1 : Bool) ∧
      cfg.scales = getScaleOptions ct opts.theme := by
  unfold createChartJsConfig at h
  cases hm : d.datasets.mapM (resolveDataset ct opts.theme) with
  | error e =>
    rw [hm] at h
    exact absurd h (by simp [Bind.bind, Except.bind])
  | ok r =>
    rw [hm] at h
    have hcfg :
        ({ type := mapCustomChartType ct,
           labels := d.labels.getD [],
           datasets := r,
           legendDisplay := d.datasets.length > 1,
           legendLabelColor := if opts.theme == ("dark") then ("#ffffff") else ("#000000"),
           titleDisplay := !((opts.title.getD ("")) == ("")),
           titleText := opts.title,
           titleColor := if opts.theme == ("dark") then ("#ffffff") else ("#000000"),
           scales := getScaleOptions ct opts.theme } : ChartJsConfig) = cfg := by
      have h2 := h
      simp only [Bind.bind, Except.bind, Pure.pure, Except.pure] at h2
      cases h2
      rfl
    rw [← hcfg]
    simp [decide_eq_true_eq]

/-- `RedisService.get` never throws: every backend outcome produces `.ok`. -/
theorem redisGet_never_throws (o : Exc (Option String)) :
    ∃ v, RedisService.get o = .ok v := by
  cases o with
  | error e => exact ⟨none, rfl⟩
  | ok r =>
    cases r with
    | none => exact ⟨none, rfl⟩
    | some s => exact ⟨_, rfl⟩

theorem redisGet_error (e : String) : RedisService.get (.error e) = .ok none := rfl

/-- `RedisService.set` never throws and always returns unit. -/
theorem redisSet_never_throws (o : Exc Unit) : RedisService.set o = .ok () := by
  cases o <;> rfl

/-- The cache probe never reaches its reconnect handler: `isAvailable` and
`get` absorb every backend error, so the surrounding try block cannot
throw. -/
theorem cacheReadPhase_no_reconnect (cw : CacheWorld) (key : String) :
    ∃ v, cacheReadPhase cw key = (v, 0) := by
  unfold cacheReadPhase
  cases hav : RedisService.isAvailable cw.ping1 with
  | false => exact ⟨none, by simp [hav]⟩
  | true =>
    obtain ⟨v, hv⟩ := redisGet_never_throws (cw.clientGet key)
    exact ⟨v, by simp [hav, hv]⟩

/-- A successful probe with a nonempty stored value is a cache hit with the
decoded bytes and no reconnect. -/
theorem cacheReadPhase_hit (cw : CacheWorld) (key s : String)
    (hping : RedisService.isAvailable cw.ping1 = true)
    (hget : cw.clientGet key = .ok (some s)) (hs : (s == ("")) = false) :
    cacheReadPhase cw key = (some (bufferFromBase64 s), 0) := by
  unfold cacheReadPhase
  simp only [hping, if_true, hget]
  rw [show RedisService.get (.ok (some s)) =
    .ok (if s == ("") then none else some (bufferFromBase64 s)) from rfl]
  simp [hs]

/-- A failed availability ping is a cache miss with no reconnect. -/
theorem cacheReadPhase_miss_unavailable (cw : CacheWorld) (key : String)
    (h : RedisService.isAvailable cw.ping1 = false) :
    cacheReadPhase cw key = (none, 0) := by
  unfold cacheReadPhase
  simp [h]

/-- A thrown client `get` is absorbed into a cache miss with no reconnect. -/
theorem cacheReadPhase_miss_get_error (cw : CacheWorld) (key e : String)
    (h : cw.clientGet key = .error e) :
    cacheReadPhase cw key = (none, 0) := by
  unfold cacheReadPhase
  cases hav : RedisService.isAvailable cw.ping1 with
  | false => simp [hav]
  | true => simp [hav, h, redisGet_error]

/-- The store step performs one client `setEx` attempt exactly when the ping
succeeds, and never reaches its reconnect handler. -/
theorem cacheStorePhase_eq (cw : CacheWorld) :
    cacheStorePhase cw = ((if RedisService.isAvailable cw.ping2 then 1 else 0), 0) := by
  unfold cacheStorePhase
  cases hav : RedisService.isAvailable cw.ping2 with
  | false => simp [hav]
  | true => simp [hav, redisSet_never_throws cw.clientSet]

/-- When the marker never appears, the wait loop makes exactly 3 polls with
two 1000 ms sleeps between them and reports failure. -/
theorem renderWaitGo_all_fail (sel : Nat → Exc Unit)
    (h : ∀ n, ∃ e, sel n = .error e) :
    renderWaitGo sel 0 3 [] = (3, [1000, 1000], false) := by
  obtain ⟨e0, h0⟩ := h 0
  obtain ⟨e1, h1⟩ := h 1
  obtain ⟨e2, h2⟩ := h 2
  simp [renderWaitGo, h0, h1, h2]

/-- When the first poll finds the marker, the wait loop stops after one poll
with no sleeps. -/
theorem renderWaitGo_first_ok (sel : Nat → Exc Unit) (h : sel 0 = .ok ()) :
    renderWaitGo sel 0 3 [] = (1, [], true) := by
  simp [renderWaitGo, h]

/-- The engine path of `generateChart` on a cache miss with every engine step
succeeding at the first attempt: the screenshot bytes are returned, one
browser was launched and one close attempted, and the cache-store step
contributes its attempts. -/
theorem generateChart_engine_ok (cw : CacheWorld) (ew : EngineWorld) (args : GenArgs)
    (buf : Bytes) (cfg : ChartJsConfig)
    (hmiss : cacheReadPhase cw (derivedKey args) = (none, 0))
    (hlaunch : ew.launch = .ok ())
    (hnew : ew.newPage = .ok ())
    (hcfg : createChartJsConfig args.chartType args.data (resolvedOpts args) = .ok cfg)
    (hnet : ew.contentNetworkIdle = .ok ())
    (hsel : ew.waitForSelector 0 = .ok ())
    (hshot : ew.screenshot = .ok buf) :
    generateChart cw ew args =
      { result := .ok buf, launches := 1, closeAttempts := 1,
        reconnectAttempts := 0, pollAttempts := 1, sleepsMs := [],
        clientSetAttempts := if RedisService.isAvailable cw.ping2 then 1 else 0 } := by
  unfold generateChart
  rw [hmiss, hlaunch, hnew, hcfg, hshot]
  rw [show jsTry ew.contentNetworkIdle (fun _ => ew.contentDomLoaded) =
    jsTry (Except.ok ()) (fun _ => ew.contentDomLoaded) from by rw [hnet]]
  rw [renderWaitGo_first_ok ew.waitForSelector hsel]
  rw [cacheStorePhase_eq cw]
  rfl

/-- The engine path of `generateChart` on a cache miss when the render-wait
marker never appears: three polls with 1000 ms spacing, a render-timeout
error classified by the outer catch, one launch, one close, and no cache
write. -/
theorem generateChart_render_timeout (cw : CacheWorld) (ew : EngineWorld) (args : GenArgs)
    (cfg : ChartJsConfig)
    (hmiss : cacheReadPhase cw (derivedKey args) = (none, 0))
    (hlaunch : ew.launch = .ok ())
    (hnew : ew.newPage = .ok ())
    (hcfg : createChartJsConfig args.chartType args.data (resolvedOpts args) = .ok cfg)
    (hnet : ew.contentNetworkIdle = .ok ())
    (hsel : ∀ n, ∃ e, ew.waitForSelector n = .error e) :
    generateChart cw ew args =
      { result := .error (("Chart generation failed: ") ++
          ("Failed to render chart after 3 attempts")),
        launches := 1, closeAttempts := 1, reconnectAttempts := 0,
        pollAttempts := 3, sleepsMs := [1000, 1000], clientSetAttempts := 0 } := by
  unfold generateChart
  rw [hmiss, hlaunch, hnew, hcfg]
  rw [show jsTry ew.contentNetworkIdle (fun _ => ew.contentDomLoaded) =
    jsTry (Except.ok ()) (fun _ => ew.contentDomLoaded) from by rw [hnet]]
  rw [renderWaitGo_all_fail ew.waitForSelector hsel]
  rw [show classifyError ("Failed to render chart after 3 attempts") =
    ("Chart generation failed: ") ++ ("Failed to render chart after 3 attempts") from by decide]
  rfl

/-- C1: the claim as stated is false — `jsonPresentation1` and
`jsonPresentation2` carry byte-identical content (equal canonical
serializations) but differ in object key order, and `generateCacheKey`
returns different keys for them, because `JSON.stringify` output is hashed
without canonicalization. -/
theorem c1_counterexample :
    sameContent jsonPresentation1 jsonPresentation2 = true ∧
    generateCacheKey ("bar") jsonPresentation1 800 600 ("light") none ("#ffffff") ≠
      generateCacheKey ("bar") jsonPresentation2 800 600 ("light") none ("#ffffff") := by
  decide

/-- C1 (amended): the cache-key derivation is deterministic — the key is a
pure function of the chart type, dimensions, theme, title presence and the
serialized `{ data, options }` text, so any two presentations with equal
serializations yield equal keys, with no randomness or timestamps — but it
does not canonicalize serialization (map key) order. -/
theorem c1_key_determinism (chartType : String) (j1 j2 : Json)
    (width height : Nat) (theme : String) (title : Option String) (bg : String)
    (hser : stringify j1 = stringify j2) :
    generateCacheKey chartType j1 width height theme title bg =
      generateCacheKey chartType j2 width height theme title bg := by
  unfold generateCacheKey
  simp only [Json.jobj, JsonFields.ofList, stringify, stringifyFields]
  rw [hser]

/-- C1 witness: the determinism theorem applied at a concrete presentation. -/
theorem c1_key_determinism_witness :
    stringify jsonPresentation1 = stringify jsonPresentation1 ∧
    generateCacheKey ("bar") jsonPresentation1 800 600 ("light") none ("#ffffff") =
      generateCacheKey ("bar") jsonPresentation1 800 600 ("light") none ("#ffffff") :=
  ⟨rfl, c1_key_determinism ("bar") jsonPresentation1 jsonPresentation1 800 600
    ("light") none ("#ffffff") rfl⟩

/-- C2: when the availability probe succeeds and the cache holds an entry for
the derived key, `generateChart` returns the cached bytes and never launches
the rendering backend (no browser launch, no close). -/
theorem c2_cache_short_circuit (cw : CacheWorld) (ew : EngineWorld) (args : GenArgs)
    (s : String)
    (hping : RedisService.isAvailable cw.ping1 = true)
    (hget : cw.clientGet (derivedKey args) = .ok (some s))
    (hs : (s == ("")) = false) :
    (generateChart cw ew args).result = .ok (bufferFromBase64 s) ∧
    (generateChart cw ew args).launches = 0 ∧
    (generateChart cw ew args).closeAttempts = 0 := by
  have hr := cacheReadPhase_hit cw (derivedKey args) s hping hget hs
  unfold generateChart
  rw [hr]
  exact ⟨rfl, rfl, rfl⟩

/-- C2 witness: the short-circuit theorem at a concrete populated cache. -/
theorem c2_cache_short_circuit_witness :
    RedisService.isAvailable cwHit.ping1 = true ∧
    cwHit.clientGet (derivedKey argsSample) = .ok (some ("AAAA")) ∧
    ((("AAAA") == ("")) = false) ∧
    (generateChart cwHit ewAllOk argsSample).result = .ok (bufferFromBase64 ("AAAA")) ∧
    (generateChart cwHit ewAllOk argsSample).launches = 0 :=
  ⟨rfl, rfl, by decide,
    (c2_cache_short_circuit cwHit ewAllOk argsSample ("AAAA") rfl rfl (by decide)).1,
    (c2_cache_short_circuit cwHit ewAllOk argsSample ("AAAA") rfl rfl (by decide)).2.1⟩

/-- C3: when every cache backend operation (ping, get, setEx) throws,
`generateChart` still succeeds by invoking the rendering engine directly and
no cache-layer error reaches the caller; in particular `RedisService.get`
returns absent instead of throwing on any backend error. -/
theorem c3_cache_failure_transparency (cw : CacheWorld) (ew : EngineWorld)
    (args : GenArgs) (buf : Bytes) (m1 m2 mg ms : String)
    (hp1 : cw.ping1 = .error m1) (hp2 : cw.ping2 = .error m2)
    (hg : ∀ k, cw.clientGet k = .error mg) (hset : cw.clientSet = .error ms)
    (hth : (resolvedOpts args).theme = ("light") ∨ (resolvedOpts args).theme = ("dark"))
    (hlaunch : ew.launch = .ok ()) (hnew : ew.newPage = .ok ())
    (hnet : ew.contentNetworkIdle = .ok ()) (hsel : ew.waitForSelector 0 = .ok ())
    (hshot : ew.screenshot = .ok buf) :
    (generateChart cw ew args).result = .ok buf ∧
    (generateChart cw ew args).launches = 1 ∧
    (generateChart cw ew args).clientSetAttempts = 0 ∧
    (∀ e, RedisService.get (.error e) = .ok none) := by
  obtain ⟨cfg, hcfg⟩ := createChartJsConfig_ok args.chartType args.data (resolvedOpts args) hth
  have hmiss : cacheReadPhase cw (derivedKey args) = (none, 0) :=
    cacheReadPhase_miss_unavailable cw (derivedKey args) (by rw [hp1]; rfl)
  have hrun := generateChart_engine_ok cw ew args buf cfg hmiss hlaunch hnew hcfg hnet hsel hshot
  rw [hrun]
  refine ⟨rfl, rfl, ?_, fun e => rfl⟩
  have hav : RedisService.isAvailable cw.ping2 = false := by rw [hp2]; rfl
  simp [hav]

/-- C3 witness: the transparency theorem at an all-failing cache world. -/
theorem c3_cache_failure_transparency_witness :
    cwAllFail.ping1 = .error ("connection refused") ∧
    cwAllFail.clientGet (derivedKey argsSample) = .error ("connection refused") ∧
    (resolvedOpts argsSample).theme = ("light") ∧
    (generateChart cwAllFail ewAllOk argsSample).result = .ok [1, 2, 3] ∧
    (generateChart cwAllFail ewAllOk argsSample).launches = 1 :=
  ⟨rfl, rfl, rfl,
    (c3_cache_failure_transparency cwAllFail ewAllOk argsSample [1, 2, 3]
      ("connection refused") ("connection refused") ("connection refused")
      ("connection refused") rfl rfl (fun _ => rfl) rfl (Or.inl rfl)
      rfl rfl rfl rfl rfl).1,
    (c3_cache_failure_transparency cwAllFail ewAllOk argsSample [1, 2, 3]
      ("connection refused") ("connection refused") ("connection refused")
      ("connection refused") rfl rfl (fun _ => rfl) rfl (Or.inl rfl)
      rfl rfl rfl rfl rfl).2.1⟩

/-- C4: the claim as stated is false — in the 2-dataset colorless light-theme
request, dataset 1's resolved background color is the whole 6-entry palette
array, not the single palette entry at index 1 (`#ef4444`) that
position-modulo-6 indexing would give. -/
theorem c4_counterexample :
    createChartJsConfig ("bar") dataTwo optsLight = .ok cfgTwoLight ∧
    (cfgTwoLight.datasets.getD 1 defaultResolvedDataset).backgroundColor =
      .many lightPaletteColors ∧
    Colors.many lightPaletteColors ≠ Colors.single ("#ef4444") ∧
    lightPaletteColors.getD 1 ("") = ("#ef4444") :=
  ⟨rfl, by decide, by decide, by decide⟩

/-- C4 (amended): every dataset that omits `backgroundColor`, `borderColor`
and `borderWidth` resolves — at every dataset position — to the entire fixed
6-entry theme palette as background color, with border color equal to the
resolved background color and border width 2; the dark-theme palette differs
from the light-theme palette. -/
theorem c4_default_styling (ct theme : String)
    (hth : theme = ("light") ∨ theme = ("dark"))
    (d : ChartData) (opts : RenderOpts) (hopts : opts.theme = theme)
    (cfg : ChartJsConfig) (hcfg : createChartJsConfig ct d opts = .ok cfg)
    (i : Nat) (hi : i < d.datasets.length)
    (hbg : (d.datasets.get ⟨i, hi⟩).backgroundColor = none)
    (hbc : (d.datasets.get ⟨i, hi⟩).borderColor = none)
    (hbw : (d.datasets.get ⟨i, hi⟩).borderWidth = none) :
    (cfg.datasets.getD i defaultResolvedDataset).backgroundColor =
      .many (if theme == ("dark") then darkPaletteColors else lightPaletteColors) ∧
    (cfg.datasets.getD i defaultResolvedDataset).borderColor =
      (cfg.datasets.getD i defaultResolvedDataset).backgroundColor ∧
    (cfg.datasets.getD i defaultResolvedDataset).borderWidth = 2 ∧
    darkPaletteColors ≠ lightPaletteColors := by
  obtain ⟨hmap, _⟩ := createChartJsConfig_elim ct d opts cfg hcfg
  obtain ⟨hlen, hget⟩ := excMapM_get (resolveDataset ct opts.theme) d.datasets
    cfg.datasets hmap
  have hi2 : i < cfg.datasets.length := by rw [hlen]; exact hi
  have hres := hget i hi hi2
  rw [hopts, resolveDataset_default ct theme hth (d.datasets.get ⟨i, hi⟩) hbg hbc hbw] at hres
  have he := Except.ok.inj hres
  have hgd : cfg.datasets.getD i defaultResolvedDataset = cfg.datasets.get ⟨i, hi2⟩ := by
    rw [List.getD_eq_getElem cfg.datasets defaultResolvedDataset hi2]
    simp
  rw [hgd, ← he]
  exact ⟨rfl, rfl, rfl, by decide⟩

/-- C4 witness: the amended styling theorem at the concrete 2-dataset
light-theme request, dataset position 1. -/
theorem c4_default_styling_witness :
    createChartJsConfig ("bar") dataTwo optsLight = .ok cfgTwoLight ∧
    (dataTwo.datasets.get ⟨1, by decide⟩).backgroundColor = none ∧
    (cfgTwoLight.datasets.getD 1 defaultResolvedDataset).backgroundColor =
      .many (if ("light") == ("dark") then darkPaletteColors else lightPaletteColors) ∧
    (cfgTwoLight.datasets.getD 1 defaultResolvedDataset).borderWidth = 2 :=
  ⟨rfl, by decide,
    (c4_default_styling ("bar") ("light") (Or.inl rfl) dataTwo optsLight rfl
      cfgTwoLight rfl 1 (by decide) (by decide) (by decide) (by decide)).1,
    (c4_default_styling ("bar") ("light") (Or.inl rfl) dataTwo optsLight rfl
      cfgTwoLight rfl 1 (by decide) (by decide) (by decide) (by decide)).2.2.1⟩

/-- C5: when the render-complete marker (the chart canvas selector) never
appears, `generateChart` makes exactly 3 poll attempts with a 1000 ms sleep
between successive attempts (never a fourth), fails with the render-timeout
error classified by the outer catch, and tears the browser down once. -/
theorem c5_render_timeout_bound (cw : CacheWorld) (ew : EngineWorld) (args : GenArgs)
    (hping : RedisService.isAvailable cw.ping1 = false)
    (hth : (resolvedOpts args).theme = ("light") ∨ (resolvedOpts args).theme = ("dark"))
    (hlaunch : ew.launch = .ok ()) (hnew : ew.newPage = .ok ())
    (hnet : ew.contentNetworkIdle = .ok ())
    (hsel : ∀ n, ∃ e, ew.waitForSelector n = .error e) :
    (generateChart cw ew args).pollAttempts = 3 ∧
    (generateChart cw ew args).sleepsMs = [1000, 1000] ∧
    (∀ t ∈ (generateChart cw ew args).sleepsMs, 1000 ≤ t) ∧
    (generateChart cw ew args).result = .error (("Chart generation failed: ") ++
      ("Failed to render chart after 3 attempts")) ∧
    (generateChart cw ew args).closeAttempts = 1 := by
  obtain ⟨cfg, hcfg⟩ := createChartJsConfig_ok args.chartType args.data (resolvedOpts args) hth
  have hmiss : cacheReadPhase cw (derivedKey args) = (none, 0) :=
    cacheReadPhase_miss_unavailable cw (derivedKey args) hping
  have hrun := generateChart_render_timeout cw ew args cfg hmiss hlaunch hnew hcfg hnet hsel
  rw [hrun]
  exact ⟨rfl, rfl, by simp, rfl, rfl⟩

/-- C5 witness: the timeout theorem at a concrete never-rendering engine. -/
theorem c5_render_timeout_bound_witness :
    RedisService.isAvailable cwAllFail.ping1 = false ∧
    ewNeverRenders.waitForSelector 0 = .error ("TimeoutError: waiting for selector") ∧
    (generateChart cwAllFail ewNeverRenders argsSample).pollAttempts = 3 ∧
    (generateChart cwAllFail ewNeverRenders argsSample).sleepsMs = [1000, 1000] ∧
    (generateChart cwAllFail ewNeverRenders argsSample).result =
      .error (("Chart generation failed: ") ++ ("Failed to render chart after 3 attempts")) :=
  ⟨rfl, rfl,
    (c5_render_timeout_bound cwAllFail ewNeverRenders argsSample rfl (Or.inl rfl)
      rfl rfl rfl (fun _ => ⟨("TimeoutError: waiting for selector"), rfl⟩)).1,
    (c5_render_timeout_bound cwAllFail ewNeverRenders argsSample rfl (Or.inl rfl)
      rfl rfl rfl (fun _ => ⟨("TimeoutError: waiting for selector"), rfl⟩)).2.1,
    (c5_render_timeout_bound cwAllFail ewNeverRenders argsSample rfl (Or.inl rfl)
      rfl rfl rfl (fun _ => ⟨("TimeoutError: waiting for selector"), rfl⟩)).2.2.2.1⟩

/-- C6: on every exit path of `generateChart` — cache hit, launch failure,
any later engine failure, or success — the number of `browser.close()`
attempts equals the number of successful launches, which is at most one: no
path leaks a launched browser and no path closes twice. -/
theorem c6_guaranteed_teardown (cw : CacheWorld) (ew : EngineWorld) (args : GenArgs) :
    (generateChart cw ew args).closeAttempts = (generateChart cw ew args).launches ∧
    (generateChart cw ew args).launches ≤ 1 := by
  obtain ⟨v, hv⟩ := cacheReadPhase_no_reconnect cw (derivedKey args)
  unfold generateChart
  rw [hv]
  cases v with
  | some cached => exact ⟨rfl, Nat.zero_le 1⟩
  | none =>
    cases hL : ew.launch with
    | error e => exact ⟨rfl, Nat.zero_le 1⟩
    | ok u =>
      cases hN : ew.newPage with
      | error e => exact ⟨rfl, Nat.le_refl 1⟩
      | ok u2 =>
        cases hC : createChartJsConfig args.chartType args.data (resolvedOpts args) with
        | error e => exact ⟨rfl, Nat.le_refl 1⟩
        | ok cfg =>
          cases hJ : jsTry ew.contentNetworkIdle (fun _ => ew.contentDomLoaded) with
          | error e => exact ⟨rfl, Nat.le_refl 1⟩
          | ok u3 =>
            rcases hW : renderWaitGo ew.waitForSelector 0 3 [] with ⟨polls, sleeps, rendered⟩
            cases rendered with
            | true =>
              cases hS : ew.screenshot with
              | error e => exact ⟨rfl, Nat.le_refl 1⟩
              | ok buf =>
                rcases hP : cacheStorePhase cw with ⟨setAtt, recon2⟩
                exact ⟨rfl, Nat.le_refl 1⟩
            | false => exact ⟨rfl, Nat.le_refl 1⟩

/-- C8: the claim as stated is false — at a world where the client `get`
throws, the failure is absorbed inside `RedisService.get` (the request
proceeds as a cache miss), and the pipeline performs zero
disconnect-reconnect attempts, not exactly one. -/
theorem c8_counterexample :
    cwGetFails.clientGet (derivedKey argsSample) = .error ("read timeout") ∧
    cwGetFails.clientSet = .error ("write timeout") ∧
    (generateChart cwGetFails ewAllOk argsSample).reconnectAttempts ≠ 1 := by
  refine ⟨rfl, rfl, ?_⟩
  have hmiss := cacheReadPhase_miss_get_error cwGetFails (derivedKey argsSample)
    ("read timeout") rfl
  obtain ⟨cfg, hcfg⟩ := createChartJsConfig_ok argsSample.chartType argsSample.data
    (resolvedOpts argsSample) (Or.inl rfl)
  have hrun := generateChart_engine_ok cwGetFails ewAllOk argsSample [1, 2, 3] cfg
    hmiss rfl rfl hcfg rfl rfl rfl
  rw [hrun]
  decide

/-- C8 (amended): a failed cache `get` or `setEx` is absorbed inside
`RedisService` (get returns absent, set returns normally), so on every run
the pipeline performs zero disconnect-reconnect attempts — its reconnect
handlers are unreachable — and issues at most one client `setEx` attempt
(no retry of a failed cache operation). -/
theorem c8_no_reconnect (cw : CacheWorld) (ew : EngineWorld) (args : GenArgs) :
    (generateChart cw ew args).reconnectAttempts = 0 ∧
    (generateChart cw ew args).clientSetAttempts ≤ 1 ∧
    (∀ e, RedisService.get (.error e) = .ok none) ∧
    (∀ e, RedisService.set (.error e) = .ok ()) := by
  obtain ⟨v, hv⟩ := cacheReadPhase_no_reconnect cw (derivedKey args)
  unfold generateChart
  rw [hv]
  cases v with
  | some cached => exact ⟨rfl, Nat.zero_le 1, fun _ => rfl, fun _ => rfl⟩
  | none =>
    cases hL : ew.launch with
    | error e => exact ⟨rfl, Nat.zero_le 1, fun _ => rfl, fun _ => rfl⟩
    | ok u =>
      cases hN : ew.newPage with
      | error e => exact ⟨rfl, Nat.zero_le 1, fun _ => rfl, fun _ => rfl⟩
      | ok u2 =>
        cases hC : createChartJsConfig args.chartType args.data (resolvedOpts args) with
        | error e => exact ⟨rfl, Nat.zero_le 1, fun _ => rfl, fun _ => rfl⟩
        | ok cfg =>
          cases hJ : jsTry ew.contentNetworkIdle (fun _ => ew.contentDomLoaded) with
          | error e => exact ⟨rfl, Nat.zero_le 1, fun _ => rfl, fun _ => rfl⟩
          | ok u3 =>
            rcases hW : renderWaitGo ew.waitForSelector 0 3 [] with ⟨polls, sleeps, rendered⟩
            cases rendered with
            | true =>
              cases hS : ew.screenshot with
              | error e => exact ⟨rfl, Nat.zero_le 1, fun _ => rfl, fun _ => rfl⟩
              | ok buf =>
                rw [cacheStorePhase_eq cw]
                refine ⟨rfl, ?_, fun _ => rfl, fun _ => rfl⟩
                cases hA : RedisService.isAvailable cw.ping2 <;> simp [hA]
            | false => exact ⟨rfl, Nat.zero_le 1, fun _ => rfl, fun _ => rfl⟩

/-- C7: the claim as stated is false — the key
`chart_cache:abc:1:2:3:4` contains the hash `abc`, yet
`invalidateChartCache` with hash `abc` leaves it in place, because the
pattern `chart_cache:*:*:*:*:*abc*` only matches `abc` after the fourth
colon-separated segment. -/
theorem c7_counterexample :
    containsSubstrS ("chart_cache:abc:1:2:3:4") ("abc") = true ∧
    invalidateChartCache ([(("chart_cache:abc:1:2:3:4"), ("v"))]) ("abc") =
      [(("chart_cache:abc:1:2:3:4"), ("v"))] := by
  decide

/-- C7 (amended): `invalidateChartCache h` deletes exactly the keys matching
the glob `chart_cache:*:*:*:*:*h*`; since every match contains `h`, every
entry whose key does not contain `h` remains present, and every entry whose
key has the generated shape `chart_cache:a:b:c:d:e` with `h` inside the
final segment is deleted — but a key containing `h` elsewhere may survive. -/
theorem c7_invalidation_scope (store : CacheStore) (h k v : String)
    (hstar : ('*') ∉ h.toList) :
    ((k, v) ∈ invalidateChartCache store h ↔
      ((k, v) ∈ store ∧ globMatchS (chartCachePattern h) k = false)) ∧
    (containsSubstrS k h = false →
      ((k, v) ∈ invalidateChartCache store h ↔ (k, v) ∈ store)) ∧
    (∀ ct wd hg th pre post,
      k = ("chart_cache:") ++ ct ++ (":") ++ wd ++ (":") ++ hg ++ (":") ++ th ++ (":") ++
        pre ++ h ++ post →
      (k, v) ∉ invalidateChartCache store h) := by
  refine ⟨invalidateChartCache_mem store h k v, ?_, ?_⟩
  · intro hnc
    rw [invalidateChartCache_mem store h k v]
    constructor
    · exact fun hh => hh.1
    · intro hin
      refine ⟨hin, ?_⟩
      cases hmk : globMatchS (chartCachePattern h) k
      · rfl
      · exfalso
        have hcc := chartCachePattern_match_contains h k hstar hmk
        rw [show containsChars k.toList h.toList = containsSubstrS k h from rfl, hnc] at hcc
        exact absurd hcc (by decide)
  · intro ct wd hg th pre post hk hmem
    rw [invalidateChartCache_mem store h k v] at hmem
    have hmk := chartCachePattern_match_shaped h ct wd hg th pre post
    rw [← hk] at hmk
    rw [hmk] at hmem
    exact absurd hmem.2 (by decide)

/-- C7 witness: the amended theorem at a concrete store — the key whose final
segment contains `ab` is deleted, the unrelated key survives. -/
theorem c7_invalidation_scope_witness :
    containsSubstrS ("unrelated") ("ab") = false ∧
    ((("unrelated"), ("w")) ∈ invalidateChartCache
        ([(("chart_cache:line:800:600:light:xxabyy"), ("v")), (("unrelated"), ("w"))])
        ("ab") ↔
      (("unrelated"), ("w")) ∈
        [(("chart_cache:line:800:600:light:xxabyy"), ("v")), (("unrelated"), ("w"))]) :=
  ⟨by decide,
    (c7_invalidation_scope
      ([(("chart_cache:line:800:600:light:xxabyy"), ("v")), (("unrelated"), ("w"))])
      ("ab") ("unrelated") ("w") (by decide)).2.1 (by decide)⟩

/-- C9: the claim as stated is false at the empty buffer — `set` stores the
empty base64 string, which the truthiness check in `get` turns into absent
(`null`), not a byte-identical empty buffer. -/
theorem c9_counterexample :
    RedisService.getStore (RedisService.setStore [] ("k") []) ("k") = none ∧
    (none : Option Bytes) ≠ some ([] : Bytes) := by
  decide

theorem bufferToBase64S_ne_empty (b : Bytes) (hne : b ≠ []) :
    (bufferToBase64S b == ("")) = false := by
  match b with
  | [] => exact absurd rfl hne
  | [x] => rfl
  | [x, y] => rfl
  | x :: y :: z :: rest => rfl

/-- C9 (amended): for every nonempty byte buffer, a successful `set` followed
by a successful `get` before expiry returns a byte-identical buffer — the
base64 encoding on `set` is exactly inverted by the decoding on `get`; only
the empty buffer degenerates to absent. -/
theorem c9_roundtrip (store : CacheStore) (key : String) (b : Bytes)
    (hb : ∀ x ∈ b, x < 256) (hne : b ≠ []) :
    RedisService.getStore (RedisService.setStore store key b) key = some b := by
  unfold RedisService.setStore RedisService.getStore
  rw [show List.lookup key ((key, bufferToBase64S b) ::
      List.filter (fun kv => !(kv.1 == key)) store) = some (bufferToBase64S b) from by
    simp [List.lookup]]
  simp only [bufferToBase64S_ne_empty b hne, Bool.false_eq_true, if_false]
  rw [show bufferFromBase64 (bufferToBase64S b) = bufferFromB64Chars (bufferToBase64 b)
    from rfl]
  rw [b64_roundtrip b hb]

/-- C9 witness: the round-trip theorem at a concrete three-byte buffer. -/
theorem c9_roundtrip_witness :
    ([1, 2, 255] : Bytes) ≠ [] ∧
    RedisService.getStore (RedisService.setStore [] ("chart_cache:k") [1, 2, 255])
      ("chart_cache:k") = some [1, 2, 255] :=
  ⟨by decide, c9_roundtrip [] ("chart_cache:k") [1, 2, 255] (by decide) (by decide)⟩

/-- C10: chart type `mixed` — and any chart type string outside the declared
mapping — maps to `line` in the emitted Chart.js configuration, and every
other declared chart type maps to itself. -/
theorem c10_mixed_fallback :
    mapCustomChartType ("mixed") = ("line") ∧
    (∀ s, s ∉ chartTypeNames → mapCustomChartType s = ("line")) ∧
    (∀ s ∈ chartTypeNames, s ≠ ("mixed") → mapCustomChartType s = s) ∧
    (∀ d opts cfg, createChartJsConfig ("mixed") d opts = .ok cfg →
      cfg.type = ("line")) := by
  refine ⟨by decide, ?_, by decide, ?_⟩
  · intro s hs
    simp only [chartTypeNames, List.mem_cons, not_or, List.not_mem_nil,
      not_false_iff, and_true] at hs
    obtain ⟨h1, h2, h3, h4, h5, h6, h7, h8, h9⟩ := hs
    unfold mapCustomChartType typeMap
    simp [List.lookup, beq_eq_false_iff_ne.mpr h1, beq_eq_false_iff_ne.mpr h2,
      beq_eq_false_iff_ne.mpr h3, beq_eq_false_iff_ne.mpr h4,
      beq_eq_false_iff_ne.mpr h5, beq_eq_false_iff_ne.mpr h6,
      beq_eq_false_iff_ne.mpr h7, beq_eq_false_iff_ne.mpr h8,
      beq_eq_false_iff_ne.mpr h9]
  · intro d opts cfg hcfg
    have := (createChartJsConfig_elim ("mixed") d opts cfg hcfg).2.1
    rw [this]
    decide

/-- C10 witness: the fallback theorem at the unknown type `funnel` and at the
concrete mixed-type configuration. -/
theorem c10_mixed_fallback_witness :
    ("funnel") ∉ chartTypeNames ∧
    mapCustomChartType ("funnel") = ("line") ∧
    createChartJsConfig ("mixed") dataTwo optsLight = .ok cfgTwoMixed ∧
    cfgTwoMixed.type = ("line") :=
  ⟨by decide, c10_mixed_fallback.2.1 ("funnel") (by decide), rfl,
    c10_mixed_fallback.2.2.2 dataTwo optsLight cfgTwoMixed rfl⟩
